import Mathlib

/-!
Verification development for the `unicode-linebreak` crate (UAX #14 line breaking).

The development shallowly embeds the two source files of the repository:

* `src/build.rs` — the build-time table compiler: it turns the Unicode
  `LineBreak.txt` property data into a paged character-class lookup
  (`BREAK_PROP_DATA` / `PAGE_INDICES`) and compiles an ordered rule list into a
  pair-transition table (`PAIR_TABLE`) via the `rules2pair_table!` macro.
  It also derives the set of non-"safe" class pairs used to generate
  `is_safe_pair`.
* `src/lib.rs` — the runtime: `break_property` (paged lookup) and `linebreaks`
  (the scanner driving `PAIR_TABLE`).

Machine integers (`u8`, `usize`) are modelled as `Nat` with explicit masking
where the source truncates.  Rust indexing, which panics when out of bounds, is
modelled with `Option` (`none` = panic) in the runtime-facing definitions;
during build-time table construction every index is statically in range and
reads are modelled with `getD`.

Break classes are identified by their numeric codes, exactly the values
assigned by `lb_class_by_key` in build.rs (which coincide with the `#[repr(u8)]`
discriminants of `BreakClass` in lib.rs).
-/

set_option maxHeartbeats 1600000
set_option maxRecDepth 100000

namespace UnicodeLinebreak

/-! ### Break-class codes, from `lb_class_by_key` in build.rs -/

def BK : Nat := 0
def CR : Nat := 1
def LF : Nat := 2
def CM : Nat := 3
def NL : Nat := 4
def SG : Nat := 5
def WJ : Nat := 6
def ZW : Nat := 7
-- the trailing underscore avoids Mathlib's `GL` notation
def GL_ : Nat := 8
def SP : Nat := 9
def ZWJ : Nat := 10
def B2 : Nat := 11
def BA : Nat := 12
def BB : Nat := 13
def HY : Nat := 14
def CB : Nat := 15
def CL : Nat := 16
def CP : Nat := 17
def EX : Nat := 18
def IN : Nat := 19
def NS : Nat := 20
def OP : Nat := 21
def QU : Nat := 22
def IS : Nat := 23
def NU : Nat := 24
def PO : Nat := 25
def PR : Nat := 26
def SY : Nat := 27
def AI : Nat := 28
def AL : Nat := 29
def CJ : Nat := 30
def EB : Nat := 31
def EM : Nat := 32
def H2 : Nat := 33
def H3 : Nat := 34
def HL : Nat := 35
def ID : Nat := 36
def JL : Nat := 37
def JV : Nat := 38
def JT : Nat := 39
def RI : Nat := 40
def SA : Nat := 41
def XX : Nat := 42

/-! ### Synthetic states, from `EXTRA_STATES` in build.rs:
`state_by_key` maps the i-th entry of `EXTRA_STATES` to `NUM_CLASSES + i`. -/

def eot : Nat := 43
def sot : Nat := 44
def ZWSP : Nat := 45
def OPSP : Nat := 46
def QUSP : Nat := 47
def CLSP : Nat := 48
def CPSP : Nat := 49
def B2SP : Nat := 50
def HLHYBA : Nat := 51
def RIRI : Nat := 52

def NUM_CLASSES : Nat := 43
def NUM_EXTRA_STATES : Nat := 10
/-- `NUM_STATES` from build.rs: number of pair-table columns (classes plus eot). -/
def NUM_STATES : Nat := NUM_CLASSES + 1
def ALLOWED_BREAK_BIT : Nat := 0x80
def MANDATORY_BREAK_BIT : Nat := 0x40
def UNIFORM_PAGE : Nat := 0x8000

/-! ### The pair-table rule compiler (`rules2pair_table!` in build.rs)

The macro parses one rule, then recursively expands the *remaining* rules
first and only afterwards emits the loop mutating the table for the current
rule (in every terminal arm the recursive call
`rules2pair_table! {$pair_table $map $($tt)*}` on the tail precedes the
mutation code).  Consequently the generated program mutates the table for the
*last* declared rule first and for the *first* declared rule last.
`applyRules` below reproduces exactly this expansion order. -/

/-- A pair table: `NUM_CLASSES + NUM_EXTRA_STATES = 53` rows of
`NUM_STATES = 44` cells, each cell a `u8` holding break bits plus next state. -/
abbrev Table := List (List Nat)

/-- Read cell `(i, j)`.  Used for in-range reads during table construction. -/
def cellOf (t : Table) (i j : Nat) : Nat := (t.getD i []).getD j 0

/-- Map a function over a list together with the position of each element,
starting at position `k`. -/
def mapIdxFrom (f : Nat → α → α) : Nat → List α → List α
  | _, [] => []
  | k, a :: l => f k a :: mapIdxFrom f (k + 1) l

/-- Update every cell of the table as a function of its coordinates and old
value.  Each mutation loop in the macro writes a set of distinct cells, the
written value depending only on that same cell's previous value (or on data
fixed before the loop), so the loop is exactly this cell-wise update. -/
def mapCells (f : Nat → Nat → Nat → Nat) (t : Table) : Table :=
  mapIdxFrom (fun i row => mapIdxFrom (fun j v => f i j v) 0 row) 0 t

/-- The three break-assertion operators of the rule syntax. -/
inductive RuleOp
  | bang
  | div
  | times

/-- Effect of one operator on a cell, from the `match $operator` in the macro:
`'!'` sets both break bits, `'÷'` sets the allowed bit, `'×'` clears both
(`val & !(ALLOWED_BREAK_BIT | MANDATORY_BREAK_BIT)` on a `u8`). -/
def applyOp : RuleOp → Nat → Nat
  | .bang, v => v ||| (ALLOWED_BREAK_BIT ||| MANDATORY_BREAK_BIT)
  | .div, v => v ||| ALLOWED_BREAK_BIT
  | .times, v => v &&& ((ALLOWED_BREAK_BIT ||| MANDATORY_BREAK_BIT) ^^^ 0xFF)

/-- One rule of the `rules2pair_table!` invocation.

* `assert first op second` — a break assertion `first OP second`; `none`
  defaults to all rows (`0..pair_table.len()`) resp. all columns
  (`0..NUM_STATES`), as in the macro's terminal operator arm.
* `treatPair first second cls` — `Treat first second as if it were cls`:
  sets cell `(i, j) := cls` for `i ∈ first`, `j ∈ second`.
* `treatAs first cls` — `Treat first as if it were cls`: for each `j ∈ first`
  with `j < NUM_STATES` and `cls < NUM_STATES`, copies column `cls` over
  column `j`; afterwards copies row `cls` over each row `i ∈ first`.
* `treatX second x` — `Treat X second* as if it were X where X = x`:
  sets cell `(i, j) := i` for `i ∈ x`, `j ∈ second`. -/
inductive Rule
  | assert (first : Option (List Nat)) (op : RuleOp) (second : Option (List Nat))
  | treatPair (first second : List Nat) (cls : Nat)
  | treatAs (first : List Nat) (cls : Nat)
  | treatX (second : List Nat) (x : List Nat)

/-- Apply a single rule to the table, mirroring the corresponding loop emitted
by the macro. -/
def applyRule (t : Table) (r : Rule) : Table :=
  match r with
  | .assert first op second =>
    -- for i in first { for j in second { t[i][j] = applyOp op t[i][j] } }
    let fst := first.getD (List.range t.length)
    let snd := second.getD (List.range NUM_STATES)
    mapCells (fun i j v => if fst.contains i ∧ snd.contains j then applyOp op v else v) t
  | .treatPair first second cls =>
    -- for i in first { for j in second { t[i][j] = cls } }
    mapCells (fun i j v => if first.contains i ∧ second.contains j then cls else v) t
  | .treatAs first xidx =>
    -- for j in first { if xidx, j < NUM_STATES { for i in all rows { t[i][j] = t[i][xidx] } } }
    -- (column `xidx` is never itself a member of `first`, so every read
    -- `t[i][xidx]` sees the value from before this rule)
    let t' := mapCells (fun i j v =>
      if first.contains j ∧ xidx < NUM_STATES ∧ j < NUM_STATES then cellOf t i xidx else v) t
    -- let row = t[xidx].clone(); for i in first { t[i] = row }
    let row := t'.getD xidx []
    mapIdxFrom (fun i r => if first.contains i then row else r) 0 t'
  | .treatX second x =>
    -- for i in x { for j in second { t[i][j] = i } }
    mapCells (fun i j v => if x.contains i ∧ second.contains j then i else v) t

/-- Apply a list of rules the way the macro expansion does: the tail of the
list is fully applied before the head rule mutates the table, so the rules
take effect in reverse declared order. -/
def applyRules : List Rule → Table → Table
  | [], t => t
  | r :: rest, t => applyRule (applyRules rest t) r

/-- The initial identity table of the macro's entry arm:
`[[0, 1, ..., 43]; NUM_CLASSES + NUM_EXTRA_STATES]`. -/
def initialPairTable : Table :=
  List.replicate (NUM_CLASSES + NUM_EXTRA_STATES) (List.range NUM_STATES)

/-- Row set of LB9's `X = [^BK CR LF NL SP ZW sot eot ZWSP OPSP QUSP CLSP CPSP B2SP]`;
a `[^ ...]` pattern in row position ranges over `0..pair_table.len()`. -/
def lb9rows : List Nat :=
  (List.range 53).filter (fun i =>
    ¬ [BK, CR, LF, NL, SP, ZW, sot, eot, ZWSP, OPSP, QUSP, CLSP, CPSP, B2SP].contains i)

/-- Row set of LB12a's `[^SP BA HY sot eot ZWSP OPSP QUSP CLSP CPSP B2SP]`. -/
def lb12arows : List Nat :=
  (List.range 53).filter (fun i =>
    ¬ [SP, BA, HY, sot, eot, ZWSP, OPSP, QUSP, CLSP, CPSP, B2SP].contains i)

/-- Rules 1-19 of the `rules2pair_table!` invocation (declared order). -/
def RULES1 : List Rule := [
  -- LB1: Treat (AI | SG | XX | SA) as if it were AL, Treat CJ as if it were NS
  .treatAs [AI, SG, XX, SA] AL,
  .treatAs [CJ] NS,
  -- LB2: sot '×'
  .assert (some [sot]) .times none,
  -- LB3: '!' eot
  .assert none .bang (some [eot]),
  -- LB4: BK '!'
  .assert (some [BK]) .bang none,
  -- LB5: CR '×' LF, CR '!', LF '!', NL '!'
  .assert (some [CR]) .times (some [LF]),
  .assert (some [CR]) .bang none,
  .assert (some [LF]) .bang none,
  .assert (some [NL]) .bang none,
  -- LB6: '×' (BK | CR | LF | NL)
  .assert none .times (some [BK, CR, LF, NL]),
  -- LB7: '×' SP, '×' ZW
  .assert none .times (some [SP]),
  .assert none .times (some [ZW]),
  -- LB8: (ZW | ZWSP) '÷', Treat (ZW | ZWSP) SP as if it were ZWSP,
  --      Treat ZWSP as if it were SP
  .assert (some [ZW, ZWSP]) .div none,
  .treatPair [ZW, ZWSP] [SP] ZWSP,
  .treatAs [ZWSP] SP,
  -- LB9: Treat X (CM | ZWJ)* as if it were X where X = [^ ...]
  .treatX [CM, ZWJ] lb9rows,
  -- LB10: Treat (CM | ZWJ) as if it were AL
  .treatAs [CM, ZWJ] AL,
  -- LB11: '×' WJ, WJ '×'
  .assert none .times (some [WJ]),
  .assert (some [WJ]) .times none
]

/-- Rules 20-38 of the `rules2pair_table!` invocation (declared order). -/
def RULES2 : List Rule := [
  -- LB12: GL '×'
  .assert (some [GL_]) .times none,
  -- LB12a: [^SP BA HY sot eot ZWSP OPSP QUSP CLSP CPSP B2SP] '×' GL
  .assert (some lb12arows) .times (some [GL_]),
  -- LB13: '×' CL, '×' CP, '×' EX, '×' IS, '×' SY
  .assert none .times (some [CL]),
  .assert none .times (some [CP]),
  .assert none .times (some [EX]),
  .assert none .times (some [IS]),
  .assert none .times (some [SY]),
  -- LB14: (OP | OPSP) '×', Treat (OP | OPSP) SP as if it were OPSP,
  --       Treat ZWSP as if it were SP
  .assert (some [OP, OPSP]) .times none,
  .treatPair [OP, OPSP] [SP] OPSP,
  .treatAs [ZWSP] SP,
  -- LB15: (QU | QUSP) '×' OP, Treat (QU | QUSP) SP as if it were QUSP,
  --       Treat QUSP as if it were SP
  .assert (some [QU, QUSP]) .times (some [OP]),
  .treatPair [QU, QUSP] [SP] QUSP,
  .treatAs [QUSP] SP,
  -- LB16: (CL | CLSP | CP | CPSP) '×' NS, Treat (CL | CLSP) SP as CLSP,
  --       Treat CLSP as SP, Treat (CP | CPSP) SP as CPSP, Treat CPSP as SP
  .assert (some [CL, CLSP, CP, CPSP]) .times (some [NS]),
  .treatPair [CL, CLSP] [SP] CLSP,
  .treatAs [CLSP] SP,
  .treatPair [CP, CPSP] [SP] CPSP,
  .treatAs [CPSP] SP,
  -- LB17: (B2 | B2SP) '×' B2, Treat (B2 | B2SP) SP as B2SP, Treat B2SP as SP
  .assert (some [B2, B2SP]) .times (some [B2])
]

/-- Rules 39-57 of the `rules2pair_table!` invocation (declared order). -/
def RULES3 : List Rule := [
  .treatPair [B2, B2SP] [SP] B2SP,
  .treatAs [B2SP] SP,
  -- LB18: SP '÷'
  .assert (some [SP]) .div none,
  -- LB19: '×' QU, QU '×'
  .assert none .times (some [QU]),
  .assert (some [QU]) .times none,
  -- LB20: '÷' CB, CB '÷'
  .assert none .div (some [CB]),
  .assert (some [CB]) .div none,
  -- LB21: '×' BA, '×' HY, '×' NS, BB '×'
  .assert none .times (some [BA]),
  .assert none .times (some [HY]),
  .assert none .times (some [NS]),
  .assert (some [BB]) .times none,
  -- LB21a: HLHYBA '×', Treat HL (HY | BA) as HLHYBA, Treat HLHYBA as HY
  .assert (some [HLHYBA]) .times none,
  .treatPair [HL] [HY, BA] HLHYBA,
  .treatAs [HLHYBA] HY,
  -- LB21b: SY '×' HL
  .assert (some [SY]) .times (some [HL]),
  -- LB22: (AL | HL) '×' IN, EX '×' IN, (ID | EB | EM) '×' IN, IN '×' IN, NU '×' IN
  .assert (some [AL, HL]) .times (some [IN]),
  .assert (some [EX]) .times (some [IN]),
  .assert (some [ID, EB, EM]) .times (some [IN]),
  .assert (some [IN]) .times (some [IN])
]

/-- Rules 58-76 of the `rules2pair_table!` invocation (declared order). -/
def RULES4 : List Rule := [
  .assert (some [NU]) .times (some [IN]),
  -- LB23: (AL | HL) '×' NU, NU '×' (AL | HL)
  .assert (some [AL, HL]) .times (some [NU]),
  .assert (some [NU]) .times (some [AL, HL]),
  -- LB23a: PR '×' (ID | EB | EM), (ID | EB | EM) '×' PO
  .assert (some [PR]) .times (some [ID, EB, EM]),
  .assert (some [ID, EB, EM]) .times (some [PO]),
  -- LB24: (PR | PO) '×' (AL | HL), (AL | HL) '×' (PR | PO)
  .assert (some [PR, PO]) .times (some [AL, HL]),
  .assert (some [AL, HL]) .times (some [PR, PO]),
  -- LB25 pairs
  .assert (some [CL]) .times (some [PO]),
  .assert (some [CP]) .times (some [PO]),
  .assert (some [CL]) .times (some [PR]),
  .assert (some [CP]) .times (some [PR]),
  .assert (some [NU]) .times (some [PO]),
  .assert (some [NU]) .times (some [PR]),
  .assert (some [PO]) .times (some [OP]),
  .assert (some [PO]) .times (some [NU]),
  .assert (some [PR]) .times (some [OP]),
  .assert (some [PR]) .times (some [NU]),
  .assert (some [HY]) .times (some [NU]),
  .assert (some [IS]) .times (some [NU])
]

/-- Rules 77-94 of the `rules2pair_table!` invocation (declared order). -/
def RULES5 : List Rule := [
  .assert (some [NU]) .times (some [NU]),
  .assert (some [SY]) .times (some [NU]),
  -- LB26: JL '×' (JL | JV | H2 | H3), (JV | H2) '×' (JV | JT), (JT | H3) '×' JT
  .assert (some [JL]) .times (some [JL, JV, H2, H3]),
  .assert (some [JV, H2]) .times (some [JV, JT]),
  .assert (some [JT, H3]) .times (some [JT]),
  -- LB27: (JL | JV | JT | H2 | H3) '×' IN, (JL | JV | JT | H2 | H3) '×' PO,
  --       PR '×' (JL | JV | JT | H2 | H3)
  .assert (some [JL, JV, JT, H2, H3]) .times (some [IN]),
  .assert (some [JL, JV, JT, H2, H3]) .times (some [PO]),
  .assert (some [PR]) .times (some [JL, JV, JT, H2, H3]),
  -- LB28: (AL | HL) '×' (AL | HL)
  .assert (some [AL, HL]) .times (some [AL, HL]),
  -- LB29: IS '×' (AL | HL)
  .assert (some [IS]) .times (some [AL, HL]),
  -- LB30: (AL | HL | NU) '×' OP, CP '×' (AL | HL | NU)
  .assert (some [AL, HL, NU]) .times (some [OP]),
  .assert (some [CP]) .times (some [AL, HL, NU]),
  -- LB30a: RI '×' RI, Treat RI RI as RIRI, Treat RIRI as RI
  .assert (some [RI]) .times (some [RI]),
  .treatPair [RI] [RI] RIRI,
  .treatAs [RIRI] RI,
  -- LB30b: EB '×' EM
  .assert (some [EB]) .times (some [EM]),
  -- LB31: '÷' ALL, ALL '÷'  ('ALL' in column position ranges over 0..NUM_STATES,
  -- in row position over 0..pair_table.len())
  .assert none .div (some (List.range NUM_STATES)),
  .assert (some (List.range 53)) .div none
]

/-- The full rule list of the `rules2pair_table!` invocation in build.rs `main`,
in declared order (LB1 first, LB31 last); split into five segments only so that
the table computation can be checked in stages. -/
def RULES : List Rule := RULES1 ++ RULES2 ++ RULES3 ++ RULES4 ++ RULES5


/-- `PAIR_TABLE`, as generated by build.rs into `tables.rs`. -/
def PAIR_TABLE : Table := applyRules RULES initialPairTable

/-- `SOT` constant from the generated tables (`state_by_key("sot")`). -/
def SOT : Nat := sot
/-- `EOT` constant from the generated tables (`state_by_key("eot")`). -/
def EOT : Nat := eot

/-- Intermediate table after the rules of the later segments have been applied. -/
def stage5Data : Table := [
  [128, 129, 130, 131, 132, 133, 134, 135, 136, 137, 138, 139, 140, 141, 142, 143, 144, 145, 146, 147, 148, 149, 150, 151, 152, 153, 154, 155, 156, 157, 158, 159, 160, 161, 162, 163, 164, 165, 166, 167, 168, 169, 170, 171],
  [128, 129, 130, 131, 132, 133, 134, 135, 136, 137, 138, 139, 140, 141, 142, 143, 144, 145, 146, 147, 148, 149, 150, 151, 152, 153, 154, 155, 156, 157, 158, 159, 160, 161, 162, 163, 164, 165, 166, 167, 168, 169, 170, 171],
  [128, 129, 130, 131, 132, 133, 134, 135, 136, 137, 138, 139, 140, 141, 142, 143, 144, 145, 146, 147, 148, 149, 150, 151, 152, 153, 154, 155, 156, 157, 158, 159, 160, 161, 162, 163, 164, 165, 166, 167, 168, 169, 170, 171],
  [128, 129, 130, 131, 132, 133, 134, 135, 136, 137, 138, 139, 140, 141, 142, 143, 144, 145, 146, 147, 148, 149, 150, 151, 152, 153, 154, 155, 156, 157, 158, 159, 160, 161, 162, 163, 164, 165, 166, 167, 168, 169, 170, 171],
  [128, 129, 130, 131, 132, 133, 134, 135, 136, 137, 138, 139, 140, 141, 142, 143, 144, 145, 146, 147, 148, 149, 150, 151, 152, 153, 154, 155, 156, 157, 158, 159, 160, 161, 162, 163, 164, 165, 166, 167, 168, 169, 170, 171],
  [128, 129, 130, 131, 132, 133, 134, 135, 136, 137, 138, 139, 140, 141, 142, 143, 144, 145, 146, 147, 148, 149, 150, 151, 152, 153, 154, 155, 156, 157, 158, 159, 160, 161, 162, 163, 164, 165, 166, 167, 168, 169, 170, 171],
  [128, 129, 130, 131, 132, 133, 134, 135, 136, 137, 138, 139, 140, 141, 142, 143, 144, 145, 146, 147, 148, 149, 150, 151, 152, 153, 154, 155, 156, 157, 158, 159, 160, 161, 162, 163, 164, 165, 166, 167, 168, 169, 170, 171],
  [128, 129, 130, 131, 132, 133, 134, 135, 136, 137, 138, 139, 140, 141, 142, 143, 144, 145, 146, 147, 148, 149, 150, 151, 152, 153, 154, 155, 156, 157, 158, 159, 160, 161, 162, 163, 164, 165, 166, 167, 168, 169, 170, 171],
  [128, 129, 130, 131, 132, 133, 134, 135, 136, 137, 138, 139, 140, 141, 142, 143, 144, 145, 146, 147, 148, 149, 150, 151, 152, 153, 154, 155, 156, 157, 158, 159, 160, 161, 162, 163, 164, 165, 166, 167, 168, 169, 170, 171],
  [128, 129, 130, 131, 132, 133, 134, 135, 136, 137, 138, 139, 140, 141, 142, 143, 144, 145, 146, 147, 148, 149, 150, 151, 152, 153, 154, 155, 156, 157, 158, 159, 160, 161, 162, 163, 164, 165, 166, 167, 168, 169, 170, 171],
  [128, 129, 130, 131, 132, 133, 134, 135, 136, 137, 138, 139, 140, 141, 142, 143, 144, 145, 146, 147, 148, 149, 150, 151, 152, 153, 154, 155, 156, 157, 158, 159, 160, 161, 162, 163, 164, 165, 166, 167, 168, 169, 170, 171],
  [128, 129, 130, 131, 132, 133, 134, 135, 136, 137, 138, 139, 140, 141, 142, 143, 144, 145, 146, 147, 148, 149, 150, 151, 152, 153, 154, 155, 156, 157, 158, 159, 160, 161, 162, 163, 164, 165, 166, 167, 168, 169, 170, 171],
  [128, 129, 130, 131, 132, 133, 134, 135, 136, 137, 138, 139, 140, 141, 142, 143, 144, 145, 146, 147, 148, 149, 150, 151, 152, 153, 154, 155, 156, 157, 158, 159, 160, 161, 162, 163, 164, 165, 166, 167, 168, 169, 170, 171],
  [128, 129, 130, 131, 132, 133, 134, 135, 136, 137, 138, 139, 140, 141, 142, 143, 144, 145, 146, 147, 148, 149, 150, 151, 152, 153, 154, 155, 156, 157, 158, 159, 160, 161, 162, 163, 164, 165, 166, 167, 168, 169, 170, 171],
  [128, 129, 130, 131, 132, 133, 134, 135, 136, 137, 138, 139, 140, 141, 142, 143, 144, 145, 146, 147, 148, 149, 150, 151, 152, 153, 154, 155, 156, 157, 158, 159, 160, 161, 162, 163, 164, 165, 166, 167, 168, 169, 170, 171],
  [128, 129, 130, 131, 132, 133, 134, 135, 136, 137, 138, 139, 140, 141, 142, 143, 144, 145, 146, 147, 148, 149, 150, 151, 152, 153, 154, 155, 156, 157, 158, 159, 160, 161, 162, 163, 164, 165, 166, 167, 168, 169, 170, 171],
  [128, 129, 130, 131, 132, 133, 134, 135, 136, 137, 138, 139, 140, 141, 142, 143, 144, 145, 146, 147, 148, 149, 150, 151, 152, 153, 154, 155, 156, 157, 158, 159, 160, 161, 162, 163, 164, 165, 166, 167, 168, 169, 170, 171],
  [128, 129, 130, 131, 132, 133, 134, 135, 136, 137, 138, 139, 140, 141, 142, 143, 144, 145, 146, 147, 148, 149, 150, 151, 24, 153, 154, 155, 156, 29, 158, 159, 160, 161, 162, 35, 164, 165, 166, 167, 168, 169, 170, 171],
  [128, 129, 130, 131, 132, 133, 134, 135, 136, 137, 138, 139, 140, 141, 142, 143, 144, 145, 146, 147, 148, 149, 150, 151, 152, 153, 154, 155, 156, 157, 158, 159, 160, 161, 162, 163, 164, 165, 166, 167, 168, 169, 170, 171],
  [128, 129, 130, 131, 132, 133, 134, 135, 136, 137, 138, 139, 140, 141, 142, 143, 144, 145, 146, 147, 148, 149, 150, 151, 152, 153, 154, 155, 156, 157, 158, 159, 160, 161, 162, 163, 164, 165, 166, 167, 168, 169, 170, 171],
  [128, 129, 130, 131, 132, 133, 134, 135, 136, 137, 138, 139, 140, 141, 142, 143, 144, 145, 146, 147, 148, 149, 150, 151, 152, 153, 154, 155, 156, 157, 158, 159, 160, 161, 162, 163, 164, 165, 166, 167, 168, 169, 170, 171],
  [128, 129, 130, 131, 132, 133, 134, 135, 136, 137, 138, 139, 140, 141, 142, 143, 144, 145, 146, 147, 148, 149, 150, 151, 152, 153, 154, 155, 156, 157, 158, 159, 160, 161, 162, 163, 164, 165, 166, 167, 168, 169, 170, 171],
  [128, 129, 130, 131, 132, 133, 134, 135, 136, 137, 138, 139, 140, 141, 142, 143, 144, 145, 146, 147, 148, 149, 150, 151, 152, 153, 154, 155, 156, 157, 158, 159, 160, 161, 162, 163, 164, 165, 166, 167, 168, 169, 170, 171],
  [128, 129, 130, 131, 132, 133, 134, 135, 136, 137, 138, 139, 140, 141, 142, 143, 144, 145, 146, 147, 148, 149, 150, 151, 152, 153, 154, 155, 156, 29, 158, 159, 160, 161, 162, 35, 164, 165, 166, 167, 168, 169, 170, 171],
  [128, 129, 130, 131, 132, 133, 134, 135, 136, 137, 138, 139, 140, 141, 142, 143, 144, 145, 146, 147, 148, 21, 150, 151, 24, 153, 154, 155, 156, 157, 158, 159, 160, 161, 162, 163, 164, 165, 166, 167, 168, 169, 170, 171],
  [128, 129, 130, 131, 132, 133, 134, 135, 136, 137, 138, 139, 140, 141, 142, 143, 144, 145, 146, 147, 148, 149, 150, 151, 152, 153, 154, 155, 156, 157, 158, 159, 160, 161, 162, 163, 164, 165, 166, 167, 168, 169, 170, 171],
  [128, 129, 130, 131, 132, 133, 134, 135, 136, 137, 138, 139, 140, 141, 142, 143, 144, 145, 146, 147, 148, 149, 150, 151, 152, 153, 154, 155, 156, 157, 158, 159, 160, 33, 34, 163, 164, 37, 38, 39, 168, 169, 170, 171],
  [128, 129, 130, 131, 132, 133, 134, 135, 136, 137, 138, 139, 140, 141, 142, 143, 144, 145, 146, 147, 148, 149, 150, 151, 24, 153, 154, 155, 156, 157, 158, 159, 160, 161, 162, 163, 164, 165, 166, 167, 168, 169, 170, 171],
  [128, 129, 130, 131, 132, 133, 134, 135, 136, 137, 138, 139, 140, 141, 142, 143, 144, 145, 146, 147, 148, 149, 150, 151, 152, 153, 154, 155, 156, 157, 158, 159, 160, 161, 162, 163, 164, 165, 166, 167, 168, 169, 170, 171],
  [128, 129, 130, 131, 132, 133, 134, 135, 136, 137, 138, 139, 140, 141, 142, 143, 144, 145, 146, 147, 148, 21, 150, 151, 152, 153, 154, 155, 156, 29, 158, 159, 160, 161, 162, 35, 164, 165, 166, 167, 168, 169, 170, 171],
  [128, 129, 130, 131, 132, 133, 134, 135, 136, 137, 138, 139, 140, 141, 142, 143, 144, 145, 146, 147, 148, 149, 150, 151, 152, 153, 154, 155, 156, 157, 158, 159, 160, 161, 162, 163, 164, 165, 166, 167, 168, 169, 170, 171],
  [128, 129, 130, 131, 132, 133, 134, 135, 136, 137, 138, 139, 140, 141, 142, 143, 144, 145, 146, 147, 148, 149, 150, 151, 152, 153, 154, 155, 156, 157, 158, 159, 32, 161, 162, 163, 164, 165, 166, 167, 168, 169, 170, 171],
  [128, 129, 130, 131, 132, 133, 134, 135, 136, 137, 138, 139, 140, 141, 142, 143, 144, 145, 146, 147, 148, 149, 150, 151, 152, 153, 154, 155, 156, 157, 158, 159, 160, 161, 162, 163, 164, 165, 166, 167, 168, 169, 170, 171],
  [128, 129, 130, 131, 132, 133, 134, 135, 136, 137, 138, 139, 140, 141, 142, 143, 144, 145, 146, 19, 148, 149, 150, 151, 152, 25, 154, 155, 156, 157, 158, 159, 160, 161, 162, 163, 164, 165, 38, 39, 168, 169, 170, 171],
  [128, 129, 130, 131, 132, 133, 134, 135, 136, 137, 138, 139, 140, 141, 142, 143, 144, 145, 146, 19, 148, 149, 150, 151, 152, 25, 154, 155, 156, 157, 158, 159, 160, 161, 162, 163, 164, 165, 166, 39, 168, 169, 170, 171],
  [128, 129, 130, 131, 132, 133, 134, 135, 136, 137, 138, 139, 140, 141, 142, 143, 144, 145, 146, 147, 148, 21, 150, 151, 152, 153, 154, 155, 156, 29, 158, 159, 160, 161, 162, 35, 164, 165, 166, 167, 168, 169, 170, 171],
  [128, 129, 130, 131, 132, 133, 134, 135, 136, 137, 138, 139, 140, 141, 142, 143, 144, 145, 146, 147, 148, 149, 150, 151, 152, 153, 154, 155, 156, 157, 158, 159, 160, 161, 162, 163, 164, 165, 166, 167, 168, 169, 170, 171],
  [128, 129, 130, 131, 132, 133, 134, 135, 136, 137, 138, 139, 140, 141, 142, 143, 144, 145, 146, 19, 148, 149, 150, 151, 152, 25, 154, 155, 156, 157, 158, 159, 160, 33, 34, 163, 164, 37, 38, 167, 168, 169, 170, 171],
  [128, 129, 130, 131, 132, 133, 134, 135, 136, 137, 138, 139, 140, 141, 142, 143, 144, 145, 146, 19, 148, 149, 150, 151, 152, 25, 154, 155, 156, 157, 158, 159, 160, 161, 162, 163, 164, 165, 38, 39, 168, 169, 170, 171],
  [128, 129, 130, 131, 132, 133, 134, 135, 136, 137, 138, 139, 140, 141, 142, 143, 144, 145, 146, 19, 148, 149, 150, 151, 152, 25, 154, 155, 156, 157, 158, 159, 160, 161, 162, 163, 164, 165, 166, 39, 168, 169, 170, 171],
  [128, 129, 130, 131, 132, 133, 134, 135, 136, 137, 138, 139, 140, 141, 142, 143, 144, 145, 146, 147, 148, 149, 150, 151, 152, 153, 154, 155, 156, 157, 158, 159, 160, 161, 162, 163, 164, 165, 166, 167, 52, 169, 170, 171],
  [128, 129, 130, 131, 132, 133, 134, 135, 136, 137, 138, 139, 140, 141, 142, 143, 144, 145, 146, 147, 148, 149, 150, 151, 152, 153, 154, 155, 156, 157, 158, 159, 160, 161, 162, 163, 164, 165, 166, 167, 168, 169, 170, 171],
  [128, 129, 130, 131, 132, 133, 134, 135, 136, 137, 138, 139, 140, 141, 142, 143, 144, 145, 146, 147, 148, 149, 150, 151, 152, 153, 154, 155, 156, 157, 158, 159, 160, 161, 162, 163, 164, 165, 166, 167, 168, 169, 170, 171],
  [128, 129, 130, 131, 132, 133, 134, 135, 136, 137, 138, 139, 140, 141, 142, 143, 144, 145, 146, 147, 148, 149, 150, 151, 152, 153, 154, 155, 156, 157, 158, 159, 160, 161, 162, 163, 164, 165, 166, 167, 168, 169, 170, 171],
  [128, 129, 130, 131, 132, 133, 134, 135, 136, 137, 138, 139, 140, 141, 142, 143, 144, 145, 146, 147, 148, 149, 150, 151, 152, 153, 154, 155, 156, 157, 158, 159, 160, 161, 162, 163, 164, 165, 166, 167, 168, 169, 170, 171],
  [128, 129, 130, 131, 132, 133, 134, 135, 136, 137, 138, 139, 140, 141, 142, 143, 144, 145, 146, 147, 148, 149, 150, 151, 152, 153, 154, 155, 156, 157, 158, 159, 160, 161, 162, 163, 164, 165, 166, 167, 168, 169, 170, 171],
  [128, 129, 130, 131, 132, 133, 134, 135, 136, 137, 138, 139, 140, 141, 142, 143, 144, 145, 146, 147, 148, 149, 150, 151, 152, 153, 154, 155, 156, 157, 158, 159, 160, 161, 162, 163, 164, 165, 166, 167, 168, 169, 170, 171],
  [128, 129, 130, 131, 132, 133, 134, 135, 136, 137, 138, 139, 140, 141, 142, 143, 144, 145, 146, 147, 148, 149, 150, 151, 152, 153, 154, 155, 156, 157, 158, 159, 160, 161, 162, 163, 164, 165, 166, 167, 168, 169, 170, 171],
  [128, 129, 130, 131, 132, 133, 134, 135, 136, 137, 138, 139, 140, 141, 142, 143, 144, 145, 146, 147, 148, 149, 150, 151, 152, 153, 154, 155, 156, 157, 158, 159, 160, 161, 162, 163, 164, 165, 166, 167, 168, 169, 170, 171],
  [128, 129, 130, 131, 132, 133, 134, 135, 136, 137, 138, 139, 140, 141, 142, 143, 144, 145, 146, 147, 148, 149, 150, 151, 152, 153, 154, 155, 156, 157, 158, 159, 160, 161, 162, 163, 164, 165, 166, 167, 168, 169, 170, 171],
  [128, 129, 130, 131, 132, 133, 134, 135, 136, 137, 138, 139, 140, 141, 142, 143, 144, 145, 146, 147, 148, 149, 150, 151, 152, 153, 154, 155, 156, 157, 158, 159, 160, 161, 162, 163, 164, 165, 166, 167, 168, 169, 170, 171],
  [128, 129, 130, 131, 132, 133, 134, 135, 136, 137, 138, 139, 140, 141, 142, 143, 144, 145, 146, 147, 148, 149, 150, 151, 152, 153, 154, 155, 156, 157, 158, 159, 160, 161, 162, 163, 164, 165, 166, 167, 168, 169, 170, 171],
  [128, 129, 130, 131, 132, 133, 134, 135, 136, 137, 138, 139, 140, 141, 142, 143, 144, 145, 146, 147, 148, 149, 150, 151, 152, 153, 154, 155, 156, 157, 158, 159, 160, 161, 162, 163, 164, 165, 166, 167, 168, 169, 170, 171]]

/-- Intermediate table after the rules of the later segments have been applied. -/
def stage4Data : Table := [
  [128, 129, 130, 131, 132, 133, 134, 135, 136, 137, 138, 139, 140, 141, 142, 143, 144, 145, 146, 147, 148, 149, 150, 151, 152, 153, 154, 155, 156, 157, 158, 159, 160, 161, 162, 163, 164, 165, 166, 167, 168, 169, 170, 171],
  [128, 129, 130, 131, 132, 133, 134, 135, 136, 137, 138, 139, 140, 141, 142, 143, 144, 145, 146, 147, 148, 149, 150, 151, 152, 153, 154, 155, 156, 157, 158, 159, 160, 161, 162, 163, 164, 165, 166, 167, 168, 169, 170, 171],
  [128, 129, 130, 131, 132, 133, 134, 135, 136, 137, 138, 139, 140, 141, 142, 143, 144, 145, 146, 147, 148, 149, 150, 151, 152, 153, 154, 155, 156, 157, 158, 159, 160, 161, 162, 163, 164, 165, 166, 167, 168, 169, 170, 171],
  [128, 129, 130, 131, 132, 133, 134, 135, 136, 137, 138, 139, 140, 141, 142, 143, 144, 145, 146, 147, 148, 149, 150, 151, 152, 153, 154, 155, 156, 157, 158, 159, 160, 161, 162, 163, 164, 165, 166, 167, 168, 169, 170, 171],
  [128, 129, 130, 131, 132, 133, 134, 135, 136, 137, 138, 139, 140, 141, 142, 143, 144, 145, 146, 147, 148, 149, 150, 151, 152, 153, 154, 155, 156, 157, 158, 159, 160, 161, 162, 163, 164, 165, 166, 167, 168, 169, 170, 171],
  [128, 129, 130, 131, 132, 133, 134, 135, 136, 137, 138, 139, 140, 141, 142, 143, 144, 145, 146, 147, 148, 149, 150, 151, 152, 153, 154, 155, 156, 157, 158, 159, 160, 161, 162, 163, 164, 165, 166, 167, 168, 169, 170, 171],
  [128, 129, 130, 131, 132, 133, 134, 135, 136, 137, 138, 139, 140, 141, 142, 143, 144, 145, 146, 147, 148, 149, 150, 151, 152, 153, 154, 155, 156, 157, 158, 159, 160, 161, 162, 163, 164, 165, 166, 167, 168, 169, 170, 171],
  [128, 129, 130, 131, 132, 133, 134, 135, 136, 137, 138, 139, 140, 141, 142, 143, 144, 145, 146, 147, 148, 149, 150, 151, 152, 153, 154, 155, 156, 157, 158, 159, 160, 161, 162, 163, 164, 165, 166, 167, 168, 169, 170, 171],
  [128, 129, 130, 131, 132, 133, 134, 135, 136, 137, 138, 139, 140, 141, 142, 143, 144, 145, 146, 147, 148, 149, 150, 151, 152, 153, 154, 155, 156, 157, 158, 159, 160, 161, 162, 163, 164, 165, 166, 167, 168, 169, 170, 171],
  [128, 129, 130, 131, 132, 133, 134, 135, 136, 137, 138, 139, 140, 141, 142, 143, 144, 145, 146, 147, 148, 149, 150, 151, 152, 153, 154, 155, 156, 157, 158, 159, 160, 161, 162, 163, 164, 165, 166, 167, 168, 169, 170, 171],
  [128, 129, 130, 131, 132, 133, 134, 135, 136, 137, 138, 139, 140, 141, 142, 143, 144, 145, 146, 147, 148, 149, 150, 151, 152, 153, 154, 155, 156, 157, 158, 159, 160, 161, 162, 163, 164, 165, 166, 167, 168, 169, 170, 171],
  [128, 129, 130, 131, 132, 133, 134, 135, 136, 137, 138, 139, 140, 141, 142, 143, 144, 145, 146, 147, 148, 149, 150, 151, 152, 153, 154, 155, 156, 157, 158, 159, 160, 161, 162, 163, 164, 165, 166, 167, 168, 169, 170, 171],
  [128, 129, 130, 131, 132, 133, 134, 135, 136, 137, 138, 139, 140, 141, 142, 143, 144, 145, 146, 147, 148, 149, 150, 151, 152, 153, 154, 155, 156, 157, 158, 159, 160, 161, 162, 163, 164, 165, 166, 167, 168, 169, 170, 171],
  [128, 129, 130, 131, 132, 133, 134, 135, 136, 137, 138, 139, 140, 141, 142, 143, 144, 145, 146, 147, 148, 149, 150, 151, 152, 153, 154, 155, 156, 157, 158, 159, 160, 161, 162, 163, 164, 165, 166, 167, 168, 169, 170, 171],
  [128, 129, 130, 131, 132, 133, 134, 135, 136, 137, 138, 139, 140, 141, 142, 143, 144, 145, 146, 147, 148, 149, 150, 151, 24, 153, 154, 155, 156, 157, 158, 159, 160, 161, 162, 163, 164, 165, 166, 167, 168, 169, 170, 171],
  [128, 129, 130, 131, 132, 133, 134, 135, 136, 137, 138, 139, 140, 141, 142, 143, 144, 145, 146, 147, 148, 149, 150, 151, 152, 153, 154, 155, 156, 157, 158, 159, 160, 161, 162, 163, 164, 165, 166, 167, 168, 169, 170, 171],
  [128, 129, 130, 131, 132, 133, 134, 135, 136, 137, 138, 139, 140, 141, 142, 143, 144, 145, 146, 147, 148, 149, 150, 151, 152, 25, 26, 155, 156, 157, 158, 159, 160, 161, 162, 163, 164, 165, 166, 167, 168, 169, 170, 171],
  [128, 129, 130, 131, 132, 133, 134, 135, 136, 137, 138, 139, 140, 141, 142, 143, 144, 145, 146, 147, 148, 149, 150, 151, 24, 25, 26, 155, 156, 29, 158, 159, 160, 161, 162, 35, 164, 165, 166, 167, 168, 169, 170, 171],
  [128, 129, 130, 131, 132, 133, 134, 135, 136, 137, 138, 139, 140, 141, 142, 143, 144, 145, 146, 147, 148, 149, 150, 151, 152, 153, 154, 155, 156, 157, 158, 159, 160, 161, 162, 163, 164, 165, 166, 167, 168, 169, 170, 171],
  [128, 129, 130, 131, 132, 133, 134, 135, 136, 137, 138, 139, 140, 141, 142, 143, 144, 145, 146, 147, 148, 149, 150, 151, 152, 153, 154, 155, 156, 157, 158, 159, 160, 161, 162, 163, 164, 165, 166, 167, 168, 169, 170, 171],
  [128, 129, 130, 131, 132, 133, 134, 135, 136, 137, 138, 139, 140, 141, 142, 143, 144, 145, 146, 147, 148, 149, 150, 151, 152, 153, 154, 155, 156, 157, 158, 159, 160, 161, 162, 163, 164, 165, 166, 167, 168, 169, 170, 171],
  [128, 129, 130, 131, 132, 133, 134, 135, 136, 137, 138, 139, 140, 141, 142, 143, 144, 145, 146, 147, 148, 149, 150, 151, 152, 153, 154, 155, 156, 157, 158, 159, 160, 161, 162, 163, 164, 165, 166, 167, 168, 169, 170, 171],
  [128, 129, 130, 131, 132, 133, 134, 135, 136, 137, 138, 139, 140, 141, 142, 143, 144, 145, 146, 147, 148, 149, 150, 151, 152, 153, 154, 155, 156, 157, 158, 159, 160, 161, 162, 163, 164, 165, 166, 167, 168, 169, 170, 171],
  [128, 129, 130, 131, 132, 133, 134, 135, 136, 137, 138, 139, 140, 141, 142, 143, 144, 145, 146, 147, 148, 149, 150, 151, 24, 153, 154, 155, 156, 29, 158, 159, 160, 161, 162, 35, 164, 165, 166, 167, 168, 169, 170, 171],
  [128, 129, 130, 131, 132, 133, 134, 135, 136, 137, 138, 139, 140, 141, 142, 143, 144, 145, 146, 19, 148, 21, 150, 151, 24, 25, 26, 155, 156, 29, 158, 159, 160, 161, 162, 35, 164, 165, 166, 167, 168, 169, 170, 171],
  [128, 129, 130, 131, 132, 133, 134, 135, 136, 137, 138, 139, 140, 141, 142, 143, 144, 145, 146, 147, 148, 21, 150, 151, 24, 153, 154, 155, 156, 29, 158, 159, 160, 161, 162, 35, 164, 165, 166, 167, 168, 169, 170, 171],
  [128, 129, 130, 131, 132, 133, 134, 135, 136, 137, 138, 139, 140, 141, 142, 143, 144, 145, 146, 147, 148, 21, 150, 151, 24, 153, 154, 155, 156, 29, 158, 31, 32, 33, 34, 35, 36, 37, 38, 39, 168, 169, 170, 171],
  [128, 129, 130, 131, 132, 133, 134, 135, 136, 137, 138, 139, 140, 141, 142, 143, 144, 145, 146, 147, 148, 149, 150, 151, 24, 153, 154, 155, 156, 157, 158, 159, 160, 161, 162, 163, 164, 165, 166, 167, 168, 169, 170, 171],
  [128, 129, 130, 131, 132, 133, 134, 135, 136, 137, 138, 139, 140, 141, 142, 143, 144, 145, 146, 147, 148, 149, 150, 151, 152, 153, 154, 155, 156, 157, 158, 159, 160, 161, 162, 163, 164, 165, 166, 167, 168, 169, 170, 171],
  [128, 129, 130, 131, 132, 133, 134, 135, 136, 137, 138, 139, 140, 141, 142, 143, 144, 145, 146, 147, 148, 21, 150, 151, 24, 25, 26, 155, 156, 29, 158, 159, 160, 161, 162, 35, 164, 165, 166, 167, 168, 169, 170, 171],
  [128, 129, 130, 131, 132, 133, 134, 135, 136, 137, 138, 139, 140, 141, 142, 143, 144, 145, 146, 147, 148, 149, 150, 151, 152, 153, 154, 155, 156, 157, 158, 159, 160, 161, 162, 163, 164, 165, 166, 167, 168, 169, 170, 171],
  [128, 129, 130, 131, 132, 133, 134, 135, 136, 137, 138, 139, 140, 141, 142, 143, 144, 145, 146, 147, 148, 149, 150, 151, 152, 25, 154, 155, 156, 157, 158, 159, 32, 161, 162, 163, 164, 165, 166, 167, 168, 169, 170, 171],
  [128, 129, 130, 131, 132, 133, 134, 135, 136, 137, 138, 139, 140, 141, 142, 143, 144, 145, 146, 147, 148, 149, 150, 151, 152, 25, 154, 155, 156, 157, 158, 159, 160, 161, 162, 163, 164, 165, 166, 167, 168, 169, 170, 171],
  [128, 129, 130, 131, 132, 133, 134, 135, 136, 137, 138, 139, 140, 141, 142, 143, 144, 145, 146, 19, 148, 149, 150, 151, 152, 25, 154, 155, 156, 157, 158, 159, 160, 161, 162, 163, 164, 165, 38, 39, 168, 169, 170, 171],
  [128, 129, 130, 131, 132, 133, 134, 135, 136, 137, 138, 139, 140, 141, 142, 143, 144, 145, 146, 19, 148, 149, 150, 151, 152, 25, 154, 155, 156, 157, 158, 159, 160, 161, 162, 163, 164, 165, 166, 39, 168, 169, 170, 171],
  [128, 129, 130, 131, 132, 133, 134, 135, 136, 137, 138, 139, 140, 141, 142, 143, 144, 145, 146, 147, 148, 21, 150, 151, 24, 25, 26, 155, 156, 29, 158, 159, 160, 161, 162, 35, 164, 165, 166, 167, 168, 169, 170, 171],
  [128, 129, 130, 131, 132, 133, 134, 135, 136, 137, 138, 139, 140, 141, 142, 143, 144, 145, 146, 147, 148, 149, 150, 151, 152, 25, 154, 155, 156, 157, 158, 159, 160, 161, 162, 163, 164, 165, 166, 167, 168, 169, 170, 171],
  [128, 129, 130, 131, 132, 133, 134, 135, 136, 137, 138, 139, 140, 141, 142, 143, 144, 145, 146, 19, 148, 149, 150, 151, 152, 25, 154, 155, 156, 157, 158, 159, 160, 33, 34, 163, 164, 37, 38, 167, 168, 169, 170, 171],
  [128, 129, 130, 131, 132, 133, 134, 135, 136, 137, 138, 139, 140, 141, 142, 143, 144, 145, 146, 19, 148, 149, 150, 151, 152, 25, 154, 155, 156, 157, 158, 159, 160, 161, 162, 163, 164, 165, 38, 39, 168, 169, 170, 171],
  [128, 129, 130, 131, 132, 133, 134, 135, 136, 137, 138, 139, 140, 141, 142, 143, 144, 145, 146, 19, 148, 149, 150, 151, 152, 25, 154, 155, 156, 157, 158, 159, 160, 161, 162, 163, 164, 165, 166, 39, 168, 169, 170, 171],
  [128, 129, 130, 131, 132, 133, 134, 135, 136, 137, 138, 139, 140, 141, 142, 143, 144, 145, 146, 147, 148, 149, 150, 151, 152, 153, 154, 155, 156, 157, 158, 159, 160, 161, 162, 163, 164, 165, 166, 167, 52, 169, 170, 171],
  [128, 129, 130, 131, 132, 133, 134, 135, 136, 137, 138, 139, 140, 141, 142, 143, 144, 145, 146, 147, 148, 149, 150, 151, 152, 153, 154, 155, 156, 157, 158, 159, 160, 161, 162, 163, 164, 165, 166, 167, 168, 169, 170, 171],
  [128, 129, 130, 131, 132, 133, 134, 135, 136, 137, 138, 139, 140, 141, 142, 143, 144, 145, 146, 147, 148, 149, 150, 151, 152, 153, 154, 155, 156, 157, 158, 159, 160, 161, 162, 163, 164, 165, 166, 167, 168, 169, 170, 171],
  [128, 129, 130, 131, 132, 133, 134, 135, 136, 137, 138, 139, 140, 141, 142, 143, 144, 145, 146, 147, 148, 149, 150, 151, 152, 153, 154, 155, 156, 157, 158, 159, 160, 161, 162, 163, 164, 165, 166, 167, 168, 169, 170, 171],
  [128, 129, 130, 131, 132, 133, 134, 135, 136, 137, 138, 139, 140, 141, 142, 143, 144, 145, 146, 147, 148, 149, 150, 151, 152, 153, 154, 155, 156, 157, 158, 159, 160, 161, 162, 163, 164, 165, 166, 167, 168, 169, 170, 171],
  [128, 129, 130, 131, 132, 133, 134, 135, 136, 137, 138, 139, 140, 141, 142, 143, 144, 145, 146, 147, 148, 149, 150, 151, 152, 153, 154, 155, 156, 157, 158, 159, 160, 161, 162, 163, 164, 165, 166, 167, 168, 169, 170, 171],
  [128, 129, 130, 131, 132, 133, 134, 135, 136, 137, 138, 139, 140, 141, 142, 143, 144, 145, 146, 147, 148, 149, 150, 151, 152, 153, 154, 155, 156, 157, 158, 159, 160, 161, 162, 163, 164, 165, 166, 167, 168, 169, 170, 171],
  [128, 129, 130, 131, 132, 133, 134, 135, 136, 137, 138, 139, 140, 141, 142, 143, 144, 145, 146, 147, 148, 149, 150, 151, 152, 153, 154, 155, 156, 157, 158, 159, 160, 161, 162, 163, 164, 165, 166, 167, 168, 169, 170, 171],
  [128, 129, 130, 131, 132, 133, 134, 135, 136, 137, 138, 139, 140, 141, 142, 143, 144, 145, 146, 147, 148, 149, 150, 151, 152, 153, 154, 155, 156, 157, 158, 159, 160, 161, 162, 163, 164, 165, 166, 167, 168, 169, 170, 171],
  [128, 129, 130, 131, 132, 133, 134, 135, 136, 137, 138, 139, 140, 141, 142, 143, 144, 145, 146, 147, 148, 149, 150, 151, 152, 153, 154, 155, 156, 157, 158, 159, 160, 161, 162, 163, 164, 165, 166, 167, 168, 169, 170, 171],
  [128, 129, 130, 131, 132, 133, 134, 135, 136, 137, 138, 139, 140, 141, 142, 143, 144, 145, 146, 147, 148, 149, 150, 151, 152, 153, 154, 155, 156, 157, 158, 159, 160, 161, 162, 163, 164, 165, 166, 167, 168, 169, 170, 171],
  [128, 129, 130, 131, 132, 133, 134, 135, 136, 137, 138, 139, 140, 141, 142, 143, 144, 145, 146, 147, 148, 149, 150, 151, 152, 153, 154, 155, 156, 157, 158, 159, 160, 161, 162, 163, 164, 165, 166, 167, 168, 169, 170, 171],
  [128, 129, 130, 131, 132, 133, 134, 135, 136, 137, 138, 139, 140, 141, 142, 143, 144, 145, 146, 147, 148, 149, 150, 151, 152, 153, 154, 155, 156, 157, 158, 159, 160, 161, 162, 163, 164, 165, 166, 167, 168, 169, 170, 171]]

/-- Intermediate table after the rules of the later segments have been applied. -/
def stage3Data : Table := [
  [128, 129, 130, 131, 132, 133, 134, 135, 136, 137, 138, 139, 12, 141, 14, 143, 144, 145, 146, 147, 20, 149, 22, 151, 152, 153, 154, 155, 156, 157, 158, 159, 160, 161, 162, 163, 164, 165, 166, 167, 168, 169, 170, 171],
  [128, 129, 130, 131, 132, 133, 134, 135, 136, 137, 138, 139, 12, 141, 14, 143, 144, 145, 146, 147, 20, 149, 22, 151, 152, 153, 154, 155, 156, 157, 158, 159, 160, 161, 162, 163, 164, 165, 166, 167, 168, 169, 170, 171],
  [128, 129, 130, 131, 132, 133, 134, 135, 136, 137, 138, 139, 12, 141, 14, 143, 144, 145, 146, 147, 20, 149, 22, 151, 152, 153, 154, 155, 156, 157, 158, 159, 160, 161, 162, 163, 164, 165, 166, 167, 168, 169, 170, 171],
  [128, 129, 130, 131, 132, 133, 134, 135, 136, 137, 138, 139, 12, 141, 14, 143, 144, 145, 146, 147, 20, 149, 22, 151, 152, 153, 154, 155, 156, 157, 158, 159, 160, 161, 162, 163, 164, 165, 166, 167, 168, 169, 170, 171],
  [128, 129, 130, 131, 132, 133, 134, 135, 136, 137, 138, 139, 12, 141, 14, 143, 144, 145, 146, 147, 20, 149, 22, 151, 152, 153, 154, 155, 156, 157, 158, 159, 160, 161, 162, 163, 164, 165, 166, 167, 168, 169, 170, 171],
  [128, 129, 130, 131, 132, 133, 134, 135, 136, 137, 138, 139, 12, 141, 14, 143, 144, 145, 146, 147, 20, 149, 22, 151, 152, 153, 154, 155, 156, 157, 158, 159, 160, 161, 162, 163, 164, 165, 166, 167, 168, 169, 170, 171],
  [128, 129, 130, 131, 132, 133, 134, 135, 136, 137, 138, 139, 12, 141, 14, 143, 144, 145, 146, 147, 20, 149, 22, 151, 152, 153, 154, 155, 156, 157, 158, 159, 160, 161, 162, 163, 164, 165, 166, 167, 168, 169, 170, 171],
  [128, 129, 130, 131, 132, 133, 134, 135, 136, 137, 138, 139, 12, 141, 14, 143, 144, 145, 146, 147, 20, 149, 22, 151, 152, 153, 154, 155, 156, 157, 158, 159, 160, 161, 162, 163, 164, 165, 166, 167, 168, 169, 170, 171],
  [128, 129, 130, 131, 132, 133, 134, 135, 136, 137, 138, 139, 12, 141, 14, 143, 144, 145, 146, 147, 20, 149, 22, 151, 152, 153, 154, 155, 156, 157, 158, 159, 160, 161, 162, 163, 164, 165, 166, 167, 168, 169, 170, 171],
  [128, 129, 130, 131, 132, 133, 134, 135, 136, 137, 138, 139, 140, 141, 142, 143, 144, 145, 146, 147, 148, 149, 150, 151, 152, 153, 154, 155, 156, 157, 158, 159, 160, 161, 162, 163, 164, 165, 166, 167, 168, 169, 170, 171],
  [128, 129, 130, 131, 132, 133, 134, 135, 136, 137, 138, 139, 12, 141, 14, 143, 144, 145, 146, 147, 20, 149, 22, 151, 152, 153, 154, 155, 156, 157, 158, 159, 160, 161, 162, 163, 164, 165, 166, 167, 168, 169, 170, 171],
  [128, 129, 130, 131, 132, 133, 134, 135, 136, 50, 138, 139, 12, 141, 14, 143, 144, 145, 146, 147, 20, 149, 22, 151, 152, 153, 154, 155, 156, 157, 158, 159, 160, 161, 162, 163, 164, 165, 166, 167, 168, 169, 170, 171],
  [128, 129, 130, 131, 132, 133, 134, 135, 136, 137, 138, 139, 12, 141, 14, 143, 144, 145, 146, 147, 20, 149, 22, 151, 152, 153, 154, 155, 156, 157, 158, 159, 160, 161, 162, 163, 164, 165, 166, 167, 168, 169, 170, 171],
  [0, 1, 2, 3, 4, 5, 6, 7, 8, 9, 10, 11, 12, 13, 14, 143, 16, 17, 18, 19, 20, 21, 22, 23, 24, 25, 26, 27, 28, 29, 30, 31, 32, 33, 34, 35, 36, 37, 38, 39, 40, 41, 42, 43],
  [128, 129, 130, 131, 132, 133, 134, 135, 136, 137, 138, 139, 12, 141, 14, 143, 144, 145, 146, 147, 20, 149, 22, 151, 24, 153, 154, 155, 156, 157, 158, 159, 160, 161, 162, 163, 164, 165, 166, 167, 168, 169, 170, 171],
  [128, 129, 130, 131, 132, 133, 134, 135, 136, 137, 138, 139, 140, 141, 142, 143, 144, 145, 146, 147, 148, 149, 22, 151, 152, 153, 154, 155, 156, 157, 158, 159, 160, 161, 162, 163, 164, 165, 166, 167, 168, 169, 170, 171],
  [128, 129, 130, 131, 132, 133, 134, 135, 136, 137, 138, 139, 12, 141, 14, 143, 144, 145, 146, 147, 20, 149, 22, 151, 152, 25, 26, 155, 156, 157, 158, 159, 160, 161, 162, 163, 164, 165, 166, 167, 168, 169, 170, 171],
  [128, 129, 130, 131, 132, 133, 134, 135, 136, 137, 138, 139, 12, 141, 14, 143, 144, 145, 146, 147, 20, 149, 22, 151, 24, 25, 26, 155, 156, 29, 158, 159, 160, 161, 162, 35, 164, 165, 166, 167, 168, 169, 170, 171],
  [128, 129, 130, 131, 132, 133, 134, 135, 136, 137, 138, 139, 12, 141, 14, 143, 144, 145, 146, 19, 20, 149, 22, 151, 152, 153, 154, 155, 156, 157, 158, 159, 160, 161, 162, 163, 164, 165, 166, 167, 168, 169, 170, 171],
  [128, 129, 130, 131, 132, 133, 134, 135, 136, 137, 138, 139, 12, 141, 14, 143, 144, 145, 146, 19, 20, 149, 22, 151, 152, 153, 154, 155, 156, 157, 158, 159, 160, 161, 162, 163, 164, 165, 166, 167, 168, 169, 170, 171],
  [128, 129, 130, 131, 132, 133, 134, 135, 136, 137, 138, 139, 12, 141, 14, 143, 144, 145, 146, 147, 20, 149, 22, 151, 152, 153, 154, 155, 156, 157, 158, 159, 160, 161, 162, 163, 164, 165, 166, 167, 168, 169, 170, 171],
  [128, 129, 130, 131, 132, 133, 134, 135, 136, 137, 138, 139, 12, 141, 14, 143, 144, 145, 146, 147, 20, 149, 22, 151, 152, 153, 154, 155, 156, 157, 158, 159, 160, 161, 162, 163, 164, 165, 166, 167, 168, 169, 170, 171],
  [0, 1, 2, 3, 4, 5, 6, 7, 8, 9, 10, 11, 12, 13, 14, 15, 16, 17, 18, 19, 20, 21, 22, 23, 24, 25, 26, 27, 28, 29, 30, 31, 32, 33, 34, 35, 36, 37, 38, 39, 40, 41, 42, 43],
  [128, 129, 130, 131, 132, 133, 134, 135, 136, 137, 138, 139, 12, 141, 14, 143, 144, 145, 146, 147, 20, 149, 22, 151, 24, 153, 154, 155, 156, 29, 158, 159, 160, 161, 162, 35, 164, 165, 166, 167, 168, 169, 170, 171],
  [128, 129, 130, 131, 132, 133, 134, 135, 136, 137, 138, 139, 12, 141, 14, 143, 144, 145, 146, 19, 20, 21, 22, 151, 24, 25, 26, 155, 156, 29, 158, 159, 160, 161, 162, 35, 164, 165, 166, 167, 168, 169, 170, 171],
  [128, 129, 130, 131, 132, 133, 134, 135, 136, 137, 138, 139, 12, 141, 14, 143, 144, 145, 146, 147, 20, 21, 22, 151, 24, 153, 154, 155, 156, 29, 158, 159, 160, 161, 162, 35, 164, 165, 166, 167, 168, 169, 170, 171],
  [128, 129, 130, 131, 132, 133, 134, 135, 136, 137, 138, 139, 12, 141, 14, 143, 144, 145, 146, 147, 20, 21, 22, 151, 24, 153, 154, 155, 156, 29, 158, 31, 32, 33, 34, 35, 36, 37, 38, 39, 168, 169, 170, 171],
  [128, 129, 130, 131, 132, 133, 134, 135, 136, 137, 138, 139, 12, 141, 14, 143, 144, 145, 146, 147, 20, 149, 22, 151, 24, 153, 154, 155, 156, 157, 158, 159, 160, 161, 162, 35, 164, 165, 166, 167, 168, 169, 170, 171],
  [128, 129, 130, 131, 132, 133, 134, 135, 136, 137, 138, 139, 12, 141, 14, 143, 144, 145, 146, 147, 20, 149, 22, 151, 152, 153, 154, 155, 156, 157, 158, 159, 160, 161, 162, 163, 164, 165, 166, 167, 168, 169, 170, 171],
  [128, 129, 130, 131, 132, 133, 134, 135, 136, 137, 138, 139, 12, 141, 14, 143, 144, 145, 146, 19, 20, 21, 22, 151, 24, 25, 26, 155, 156, 29, 158, 159, 160, 161, 162, 35, 164, 165, 166, 167, 168, 169, 170, 171],
  [128, 129, 130, 131, 132, 133, 134, 135, 136, 137, 138, 139, 12, 141, 14, 143, 144, 145, 146, 147, 20, 149, 22, 151, 152, 153, 154, 155, 156, 157, 158, 159, 160, 161, 162, 163, 164, 165, 166, 167, 168, 169, 170, 171],
  [128, 129, 130, 131, 132, 133, 134, 135, 136, 137, 138, 139, 12, 141, 14, 143, 144, 145, 146, 19, 20, 149, 22, 151, 152, 25, 154, 155, 156, 157, 158, 159, 32, 161, 162, 163, 164, 165, 166, 167, 168, 169, 170, 171],
  [128, 129, 130, 131, 132, 133, 134, 135, 136, 137, 138, 139, 12, 141, 14, 143, 144, 145, 146, 19, 20, 149, 22, 151, 152, 25, 154, 155, 156, 157, 158, 159, 160, 161, 162, 163, 164, 165, 166, 167, 168, 169, 170, 171],
  [128, 129, 130, 131, 132, 133, 134, 135, 136, 137, 138, 139, 12, 141, 14, 143, 144, 145, 146, 19, 20, 149, 22, 151, 152, 25, 154, 155, 156, 157, 158, 159, 160, 161, 162, 163, 164, 165, 38, 39, 168, 169, 170, 171],
  [128, 129, 130, 131, 132, 133, 134, 135, 136, 137, 138, 139, 12, 141, 14, 143, 144, 145, 146, 19, 20, 149, 22, 151, 152, 25, 154, 155, 156, 157, 158, 159, 160, 161, 162, 163, 164, 165, 166, 39, 168, 169, 170, 171],
  [128, 129, 130, 131, 132, 133, 134, 135, 136, 137, 138, 139, 51, 141, 51, 143, 144, 145, 146, 19, 20, 21, 22, 151, 24, 25, 26, 155, 156, 29, 158, 159, 160, 161, 162, 35, 164, 165, 166, 167, 168, 169, 170, 171],
  [128, 129, 130, 131, 132, 133, 134, 135, 136, 137, 138, 139, 12, 141, 14, 143, 144, 145, 146, 19, 20, 149, 22, 151, 152, 25, 154, 155, 156, 157, 158, 159, 160, 161, 162, 163, 164, 165, 166, 167, 168, 169, 170, 171],
  [128, 129, 130, 131, 132, 133, 134, 135, 136, 137, 138, 139, 12, 141, 14, 143, 144, 145, 146, 19, 20, 149, 22, 151, 152, 25, 154, 155, 156, 157, 158, 159, 160, 33, 34, 163, 164, 37, 38, 167, 168, 169, 170, 171],
  [128, 129, 130, 131, 132, 133, 134, 135, 136, 137, 138, 139, 12, 141, 14, 143, 144, 145, 146, 19, 20, 149, 22, 151, 152, 25, 154, 155, 156, 157, 158, 159, 160, 161, 162, 163, 164, 165, 38, 39, 168, 169, 170, 171],
  [128, 129, 130, 131, 132, 133, 134, 135, 136, 137, 138, 139, 12, 141, 14, 143, 144, 145, 146, 19, 20, 149, 22, 151, 152, 25, 154, 155, 156, 157, 158, 159, 160, 161, 162, 163, 164, 165, 166, 39, 168, 169, 170, 171],
  [128, 129, 130, 131, 132, 133, 134, 135, 136, 137, 138, 139, 12, 141, 14, 143, 144, 145, 146, 147, 20, 149, 22, 151, 152, 153, 154, 155, 156, 157, 158, 159, 160, 161, 162, 163, 164, 165, 166, 167, 52, 169, 170, 171],
  [128, 129, 130, 131, 132, 133, 134, 135, 136, 137, 138, 139, 12, 141, 14, 143, 144, 145, 146, 147, 20, 149, 22, 151, 152, 153, 154, 155, 156, 157, 158, 159, 160, 161, 162, 163, 164, 165, 166, 167, 168, 169, 170, 171],
  [128, 129, 130, 131, 132, 133, 134, 135, 136, 137, 138, 139, 12, 141, 14, 143, 144, 145, 146, 147, 20, 149, 22, 151, 152, 153, 154, 155, 156, 157, 158, 159, 160, 161, 162, 163, 164, 165, 166, 167, 168, 169, 170, 171],
  [128, 129, 130, 131, 132, 133, 134, 135, 136, 137, 138, 139, 12, 141, 14, 143, 144, 145, 146, 147, 20, 149, 22, 151, 152, 153, 154, 155, 156, 157, 158, 159, 160, 161, 162, 163, 164, 165, 166, 167, 168, 169, 170, 171],
  [128, 129, 130, 131, 132, 133, 134, 135, 136, 137, 138, 139, 12, 141, 14, 143, 144, 145, 146, 147, 20, 149, 22, 151, 152, 153, 154, 155, 156, 157, 158, 159, 160, 161, 162, 163, 164, 165, 166, 167, 168, 169, 170, 171],
  [128, 129, 130, 131, 132, 133, 134, 135, 136, 137, 138, 139, 12, 141, 14, 143, 144, 145, 146, 147, 20, 149, 22, 151, 152, 153, 154, 155, 156, 157, 158, 159, 160, 161, 162, 163, 164, 165, 166, 167, 168, 169, 170, 171],
  [128, 129, 130, 131, 132, 133, 134, 135, 136, 137, 138, 139, 12, 141, 14, 143, 144, 145, 146, 147, 20, 149, 22, 151, 152, 153, 154, 155, 156, 157, 158, 159, 160, 161, 162, 163, 164, 165, 166, 167, 168, 169, 170, 171],
  [128, 129, 130, 131, 132, 133, 134, 135, 136, 137, 138, 139, 12, 141, 14, 143, 144, 145, 146, 147, 20, 149, 22, 151, 152, 153, 154, 155, 156, 157, 158, 159, 160, 161, 162, 163, 164, 165, 166, 167, 168, 169, 170, 171],
  [128, 129, 130, 131, 132, 133, 134, 135, 136, 137, 138, 139, 12, 141, 14, 143, 144, 145, 146, 147, 20, 149, 22, 151, 152, 153, 154, 155, 156, 157, 158, 159, 160, 161, 162, 163, 164, 165, 166, 167, 168, 169, 170, 171],
  [128, 129, 130, 131, 132, 133, 134, 135, 136, 137, 138, 139, 12, 141, 14, 143, 144, 145, 146, 147, 20, 149, 22, 151, 152, 153, 154, 155, 156, 157, 158, 159, 160, 161, 162, 163, 164, 165, 166, 167, 168, 169, 170, 171],
  [128, 129, 130, 131, 132, 133, 134, 135, 136, 50, 138, 139, 140, 141, 142, 143, 144, 145, 146, 147, 148, 149, 150, 151, 152, 153, 154, 155, 156, 157, 158, 159, 160, 161, 162, 163, 164, 165, 166, 167, 168, 169, 170, 171],
  [0, 1, 2, 3, 4, 5, 6, 7, 8, 9, 10, 11, 12, 13, 14, 143, 16, 17, 18, 19, 20, 21, 22, 23, 24, 25, 26, 27, 28, 29, 30, 31, 32, 33, 34, 35, 36, 37, 38, 39, 40, 41, 42, 43],
  [128, 129, 130, 131, 132, 133, 134, 135, 136, 137, 138, 139, 12, 141, 14, 143, 144, 145, 146, 147, 20, 149, 22, 151, 152, 153, 154, 155, 156, 157, 158, 159, 160, 161, 162, 163, 164, 165, 166, 167, 168, 169, 170, 171]]

/-- Intermediate table after the rules of the later segments have been applied. -/
def stage2Data : Table := [
  [128, 129, 130, 131, 132, 133, 134, 135, 8, 137, 138, 139, 12, 141, 14, 143, 16, 17, 18, 147, 20, 149, 22, 23, 152, 153, 154, 27, 156, 157, 158, 159, 160, 161, 162, 163, 164, 165, 166, 167, 168, 169, 170, 171],
  [128, 129, 130, 131, 132, 133, 134, 135, 8, 137, 138, 139, 12, 141, 14, 143, 16, 17, 18, 147, 20, 149, 22, 23, 152, 153, 154, 27, 156, 157, 158, 159, 160, 161, 162, 163, 164, 165, 166, 167, 168, 169, 170, 171],
  [128, 129, 130, 131, 132, 133, 134, 135, 8, 137, 138, 139, 12, 141, 14, 143, 16, 17, 18, 147, 20, 149, 22, 23, 152, 153, 154, 27, 156, 157, 158, 159, 160, 161, 162, 163, 164, 165, 166, 167, 168, 169, 170, 171],
  [128, 129, 130, 131, 132, 133, 134, 135, 8, 137, 138, 139, 12, 141, 14, 143, 16, 17, 18, 147, 20, 149, 22, 23, 152, 153, 154, 27, 156, 157, 158, 159, 160, 161, 162, 163, 164, 165, 166, 167, 168, 169, 170, 171],
  [128, 129, 130, 131, 132, 133, 134, 135, 8, 137, 138, 139, 12, 141, 14, 143, 16, 17, 18, 147, 20, 149, 22, 23, 152, 153, 154, 27, 156, 157, 158, 159, 160, 161, 162, 163, 164, 165, 166, 167, 168, 169, 170, 171],
  [128, 129, 130, 131, 132, 133, 134, 135, 8, 137, 138, 139, 12, 141, 14, 143, 16, 17, 18, 147, 20, 149, 22, 23, 152, 153, 154, 27, 156, 157, 158, 159, 160, 161, 162, 163, 164, 165, 166, 167, 168, 169, 170, 171],
  [128, 129, 130, 131, 132, 133, 134, 135, 8, 137, 138, 139, 12, 141, 14, 143, 16, 17, 18, 147, 20, 149, 22, 23, 152, 153, 154, 27, 156, 157, 158, 159, 160, 161, 162, 163, 164, 165, 166, 167, 168, 169, 170, 171],
  [128, 129, 130, 131, 132, 133, 134, 135, 8, 137, 138, 139, 12, 141, 14, 143, 16, 17, 18, 147, 20, 149, 22, 23, 152, 153, 154, 27, 156, 157, 158, 159, 160, 161, 162, 163, 164, 165, 166, 167, 168, 169, 170, 171],
  [0, 1, 2, 3, 4, 5, 6, 7, 8, 9, 10, 11, 12, 13, 14, 15, 16, 17, 18, 19, 20, 21, 22, 23, 24, 25, 26, 27, 28, 29, 30, 31, 32, 33, 34, 35, 36, 37, 38, 39, 40, 41, 42, 43],
  [128, 129, 130, 131, 132, 133, 134, 135, 136, 137, 138, 139, 140, 141, 142, 143, 16, 17, 18, 147, 148, 149, 150, 23, 152, 153, 154, 27, 156, 157, 158, 159, 160, 161, 162, 163, 164, 165, 166, 167, 168, 169, 170, 171],
  [128, 129, 130, 131, 132, 133, 134, 135, 8, 137, 138, 139, 12, 141, 14, 143, 16, 17, 18, 147, 20, 149, 22, 23, 152, 153, 154, 27, 156, 157, 158, 159, 160, 161, 162, 163, 164, 165, 166, 167, 168, 169, 170, 171],
  [128, 129, 130, 131, 132, 133, 134, 135, 8, 50, 138, 11, 12, 141, 14, 143, 16, 17, 18, 147, 20, 149, 22, 23, 152, 153, 154, 27, 156, 157, 158, 159, 160, 161, 162, 163, 164, 165, 166, 167, 168, 169, 170, 171],
  [128, 129, 130, 131, 132, 133, 134, 135, 136, 137, 138, 139, 12, 141, 14, 143, 16, 17, 18, 147, 20, 149, 22, 23, 152, 153, 154, 27, 156, 157, 158, 159, 160, 161, 162, 163, 164, 165, 166, 167, 168, 169, 170, 171],
  [0, 1, 2, 3, 4, 5, 6, 7, 8, 9, 10, 11, 12, 13, 14, 143, 16, 17, 18, 19, 20, 21, 22, 23, 24, 25, 26, 27, 28, 29, 30, 31, 32, 33, 34, 35, 36, 37, 38, 39, 40, 41, 42, 43],
  [128, 129, 130, 131, 132, 133, 134, 135, 136, 137, 138, 139, 12, 141, 14, 143, 16, 17, 18, 147, 20, 149, 22, 23, 24, 153, 154, 27, 156, 157, 158, 159, 160, 161, 162, 163, 164, 165, 166, 167, 168, 169, 170, 171],
  [128, 129, 130, 131, 132, 133, 134, 135, 8, 137, 138, 139, 140, 141, 142, 143, 16, 17, 18, 147, 148, 149, 22, 23, 152, 153, 154, 27, 156, 157, 158, 159, 160, 161, 162, 163, 164, 165, 166, 167, 168, 169, 170, 171],
  [128, 129, 130, 131, 132, 133, 134, 135, 8, 48, 138, 139, 12, 141, 14, 143, 16, 17, 18, 147, 20, 149, 22, 23, 152, 25, 26, 27, 156, 157, 158, 159, 160, 161, 162, 163, 164, 165, 166, 167, 168, 169, 170, 171],
  [128, 129, 130, 131, 132, 133, 134, 135, 8, 49, 138, 139, 12, 141, 14, 143, 16, 17, 18, 147, 20, 149, 22, 23, 24, 25, 26, 27, 156, 29, 158, 159, 160, 161, 162, 35, 164, 165, 166, 167, 168, 169, 170, 171],
  [128, 129, 130, 131, 132, 133, 134, 135, 8, 137, 138, 139, 12, 141, 14, 143, 16, 17, 18, 19, 20, 149, 22, 23, 152, 153, 154, 27, 156, 157, 158, 159, 160, 161, 162, 163, 164, 165, 166, 167, 168, 169, 170, 171],
  [128, 129, 130, 131, 132, 133, 134, 135, 8, 137, 138, 139, 12, 141, 14, 143, 16, 17, 18, 19, 20, 149, 22, 23, 152, 153, 154, 27, 156, 157, 158, 159, 160, 161, 162, 163, 164, 165, 166, 167, 168, 169, 170, 171],
  [128, 129, 130, 131, 132, 133, 134, 135, 8, 137, 138, 139, 12, 141, 14, 143, 16, 17, 18, 147, 20, 149, 22, 23, 152, 153, 154, 27, 156, 157, 158, 159, 160, 161, 162, 163, 164, 165, 166, 167, 168, 169, 170, 171],
  [0, 1, 2, 3, 4, 5, 6, 7, 8, 46, 10, 11, 12, 13, 14, 15, 16, 17, 18, 19, 20, 21, 22, 23, 24, 25, 26, 27, 28, 29, 30, 31, 32, 33, 34, 35, 36, 37, 38, 39, 40, 41, 42, 43],
  [0, 1, 2, 3, 4, 5, 6, 7, 8, 47, 10, 11, 12, 13, 14, 15, 16, 17, 18, 19, 20, 21, 22, 23, 24, 25, 26, 27, 28, 29, 30, 31, 32, 33, 34, 35, 36, 37, 38, 39, 40, 41, 42, 43],
  [128, 129, 130, 131, 132, 133, 134, 135, 8, 137, 138, 139, 12, 141, 14, 143, 16, 17, 18, 147, 20, 149, 22, 23, 24, 153, 154, 27, 156, 29, 158, 159, 160, 161, 162, 35, 164, 165, 166, 167, 168, 169, 170, 171],
  [128, 129, 130, 131, 132, 133, 134, 135, 8, 137, 138, 139, 12, 141, 14, 143, 16, 17, 18, 19, 20, 21, 22, 23, 24, 25, 26, 27, 156, 29, 158, 159, 160, 161, 162, 35, 164, 165, 166, 167, 168, 169, 170, 171],
  [128, 129, 130, 131, 132, 133, 134, 135, 8, 137, 138, 139, 12, 141, 14, 143, 16, 17, 18, 147, 20, 21, 22, 23, 24, 153, 154, 27, 156, 29, 158, 159, 160, 161, 162, 35, 164, 165, 166, 167, 168, 169, 170, 171],
  [128, 129, 130, 131, 132, 133, 134, 135, 8, 137, 138, 139, 12, 141, 14, 143, 16, 17, 18, 147, 20, 21, 22, 23, 24, 153, 154, 27, 156, 29, 158, 31, 32, 33, 34, 35, 36, 37, 38, 39, 168, 169, 170, 171],
  [128, 129, 130, 131, 132, 133, 134, 135, 8, 137, 138, 139, 12, 141, 14, 143, 16, 17, 18, 147, 20, 149, 22, 23, 24, 153, 154, 27, 156, 157, 158, 159, 160, 161, 162, 35, 164, 165, 166, 167, 168, 169, 170, 171],
  [128, 129, 130, 131, 132, 133, 134, 135, 8, 137, 138, 139, 12, 141, 14, 143, 16, 17, 18, 147, 20, 149, 22, 23, 152, 153, 154, 27, 156, 157, 158, 159, 160, 161, 162, 163, 164, 165, 166, 167, 168, 169, 170, 171],
  [128, 129, 130, 131, 132, 133, 134, 135, 8, 137, 138, 139, 12, 141, 14, 143, 16, 17, 18, 19, 20, 21, 22, 23, 24, 25, 26, 27, 156, 29, 158, 159, 160, 161, 162, 35, 164, 165, 166, 167, 168, 169, 170, 171],
  [128, 129, 130, 131, 132, 133, 134, 135, 8, 137, 138, 139, 12, 141, 14, 143, 16, 17, 18, 147, 20, 149, 22, 23, 152, 153, 154, 27, 156, 157, 158, 159, 160, 161, 162, 163, 164, 165, 166, 167, 168, 169, 170, 171],
  [128, 129, 130, 131, 132, 133, 134, 135, 8, 137, 138, 139, 12, 141, 14, 143, 16, 17, 18, 19, 20, 149, 22, 23, 152, 25, 154, 27, 156, 157, 158, 159, 32, 161, 162, 163, 164, 165, 166, 167, 168, 169, 170, 171],
  [128, 129, 130, 131, 132, 133, 134, 135, 8, 137, 138, 139, 12, 141, 14, 143, 16, 17, 18, 19, 20, 149, 22, 23, 152, 25, 154, 27, 156, 157, 158, 159, 160, 161, 162, 163, 164, 165, 166, 167, 168, 169, 170, 171],
  [128, 129, 130, 131, 132, 133, 134, 135, 8, 137, 138, 139, 12, 141, 14, 143, 16, 17, 18, 19, 20, 149, 22, 23, 152, 25, 154, 27, 156, 157, 158, 159, 160, 161, 162, 163, 164, 165, 38, 39, 168, 169, 170, 171],
  [128, 129, 130, 131, 132, 133, 134, 135, 8, 137, 138, 139, 12, 141, 14, 143, 16, 17, 18, 19, 20, 149, 22, 23, 152, 25, 154, 27, 156, 157, 158, 159, 160, 161, 162, 163, 164, 165, 166, 39, 168, 169, 170, 171],
  [128, 129, 130, 131, 132, 133, 134, 135, 8, 137, 138, 139, 51, 141, 51, 143, 16, 17, 18, 19, 20, 21, 22, 23, 24, 25, 26, 27, 156, 29, 158, 159, 160, 161, 162, 35, 164, 165, 166, 167, 168, 169, 170, 171],
  [128, 129, 130, 131, 132, 133, 134, 135, 8, 137, 138, 139, 12, 141, 14, 143, 16, 17, 18, 19, 20, 149, 22, 23, 152, 25, 154, 27, 156, 157, 158, 159, 160, 161, 162, 163, 164, 165, 166, 167, 168, 169, 170, 171],
  [128, 129, 130, 131, 132, 133, 134, 135, 8, 137, 138, 139, 12, 141, 14, 143, 16, 17, 18, 19, 20, 149, 22, 23, 152, 25, 154, 27, 156, 157, 158, 159, 160, 33, 34, 163, 164, 37, 38, 167, 168, 169, 170, 171],
  [128, 129, 130, 131, 132, 133, 134, 135, 8, 137, 138, 139, 12, 141, 14, 143, 16, 17, 18, 19, 20, 149, 22, 23, 152, 25, 154, 27, 156, 157, 158, 159, 160, 161, 162, 163, 164, 165, 38, 39, 168, 169, 170, 171],
  [128, 129, 130, 131, 132, 133, 134, 135, 8, 137, 138, 139, 12, 141, 14, 143, 16, 17, 18, 19, 20, 149, 22, 23, 152, 25, 154, 27, 156, 157, 158, 159, 160, 161, 162, 163, 164, 165, 166, 39, 168, 169, 170, 171],
  [128, 129, 130, 131, 132, 133, 134, 135, 8, 137, 138, 139, 12, 141, 14, 143, 16, 17, 18, 147, 20, 149, 22, 23, 152, 153, 154, 27, 156, 157, 158, 159, 160, 161, 162, 163, 164, 165, 166, 167, 52, 169, 170, 171],
  [128, 129, 130, 131, 132, 133, 134, 135, 8, 137, 138, 139, 12, 141, 14, 143, 16, 17, 18, 147, 20, 149, 22, 23, 152, 153, 154, 27, 156, 157, 158, 159, 160, 161, 162, 163, 164, 165, 166, 167, 168, 169, 170, 171],
  [128, 129, 130, 131, 132, 133, 134, 135, 8, 137, 138, 139, 12, 141, 14, 143, 16, 17, 18, 147, 20, 149, 22, 23, 152, 153, 154, 27, 156, 157, 158, 159, 160, 161, 162, 163, 164, 165, 166, 167, 168, 169, 170, 171],
  [128, 129, 130, 131, 132, 133, 134, 135, 136, 137, 138, 139, 12, 141, 14, 143, 16, 17, 18, 147, 20, 149, 22, 23, 152, 153, 154, 27, 156, 157, 158, 159, 160, 161, 162, 163, 164, 165, 166, 167, 168, 169, 170, 171],
  [128, 129, 130, 131, 132, 133, 134, 135, 136, 137, 138, 139, 12, 141, 14, 143, 16, 17, 18, 147, 20, 149, 22, 23, 152, 153, 154, 27, 156, 157, 158, 159, 160, 161, 162, 163, 164, 165, 166, 167, 168, 169, 170, 171],
  [128, 129, 130, 131, 132, 133, 134, 135, 136, 137, 138, 139, 140, 141, 142, 143, 16, 17, 18, 147, 148, 149, 150, 23, 152, 153, 154, 27, 156, 157, 158, 159, 160, 161, 162, 163, 164, 165, 166, 167, 168, 169, 170, 171],
  [0, 1, 2, 3, 4, 5, 6, 7, 8, 46, 10, 11, 12, 13, 14, 15, 16, 17, 18, 19, 20, 21, 22, 23, 24, 25, 26, 27, 28, 29, 30, 31, 32, 33, 34, 35, 36, 37, 38, 39, 40, 41, 42, 43],
  [128, 129, 130, 131, 132, 133, 134, 135, 136, 47, 138, 139, 140, 141, 142, 143, 16, 17, 18, 147, 148, 21, 150, 23, 152, 153, 154, 27, 156, 157, 158, 159, 160, 161, 162, 163, 164, 165, 166, 167, 168, 169, 170, 171],
  [128, 129, 130, 131, 132, 133, 134, 135, 136, 48, 138, 139, 140, 141, 142, 143, 16, 17, 18, 147, 20, 149, 150, 23, 152, 153, 154, 27, 156, 157, 158, 159, 160, 161, 162, 163, 164, 165, 166, 167, 168, 169, 170, 171],
  [128, 129, 130, 131, 132, 133, 134, 135, 136, 49, 138, 139, 140, 141, 142, 143, 16, 17, 18, 147, 20, 149, 150, 23, 152, 153, 154, 27, 156, 157, 158, 159, 160, 161, 162, 163, 164, 165, 166, 167, 168, 169, 170, 171],
  [128, 129, 130, 131, 132, 133, 134, 135, 136, 50, 138, 11, 140, 141, 142, 143, 16, 17, 18, 147, 148, 149, 150, 23, 152, 153, 154, 27, 156, 157, 158, 159, 160, 161, 162, 163, 164, 165, 166, 167, 168, 169, 170, 171],
  [0, 1, 2, 3, 4, 5, 6, 7, 8, 9, 10, 11, 12, 13, 14, 143, 16, 17, 18, 19, 20, 21, 22, 23, 24, 25, 26, 27, 28, 29, 30, 31, 32, 33, 34, 35, 36, 37, 38, 39, 40, 41, 42, 43],
  [128, 129, 130, 131, 132, 133, 134, 135, 8, 137, 138, 139, 12, 141, 14, 143, 16, 17, 18, 147, 20, 149, 22, 23, 152, 153, 154, 27, 156, 157, 158, 159, 160, 161, 162, 163, 164, 165, 166, 167, 168, 169, 170, 171]]
/-- The computed value of `PAIR_TABLE`; see `pairTable_eq`. -/
def pairTableData : Table := [
  [192, 193, 194, 221, 196, 221, 198, 199, 200, 201, 221, 203, 204, 205, 206, 207, 208, 209, 210, 211, 212, 213, 214, 215, 216, 217, 218, 219, 221, 221, 212, 223, 224, 225, 226, 227, 228, 229, 230, 231, 232, 221, 221, 235],
  [192, 193, 2, 221, 196, 221, 198, 199, 200, 201, 221, 203, 204, 205, 206, 207, 208, 209, 210, 211, 212, 213, 214, 215, 216, 217, 218, 219, 221, 221, 212, 223, 224, 225, 226, 227, 228, 229, 230, 231, 232, 221, 221, 235],
  [192, 193, 194, 221, 196, 221, 198, 199, 200, 201, 221, 203, 204, 205, 206, 207, 208, 209, 210, 211, 212, 213, 214, 215, 216, 217, 218, 219, 221, 221, 212, 223, 224, 225, 226, 227, 228, 229, 230, 231, 232, 221, 221, 235],
  [0, 1, 2, 3, 4, 29, 6, 7, 8, 9, 3, 139, 12, 141, 14, 143, 16, 17, 18, 19, 20, 21, 22, 23, 24, 25, 26, 27, 29, 29, 20, 159, 160, 161, 162, 35, 164, 165, 166, 167, 168, 29, 29, 235],
  [192, 193, 194, 221, 196, 221, 198, 199, 200, 201, 221, 203, 204, 205, 206, 207, 208, 209, 210, 211, 212, 213, 214, 215, 216, 217, 218, 219, 221, 221, 212, 223, 224, 225, 226, 227, 228, 229, 230, 231, 232, 221, 221, 235],
  [0, 1, 2, 29, 4, 29, 6, 7, 8, 9, 29, 139, 12, 141, 14, 143, 16, 17, 18, 19, 20, 21, 22, 23, 24, 25, 26, 27, 29, 29, 20, 159, 160, 161, 162, 35, 164, 165, 166, 167, 168, 29, 29, 235],
  [0, 1, 2, 6, 4, 29, 6, 7, 8, 9, 6, 11, 12, 13, 14, 15, 16, 17, 18, 19, 20, 21, 22, 23, 24, 25, 26, 27, 29, 29, 20, 31, 32, 33, 34, 35, 36, 37, 38, 39, 40, 29, 29, 235],
  [0, 1, 2, 157, 4, 157, 134, 7, 136, 45, 157, 139, 140, 141, 142, 143, 144, 145, 146, 147, 148, 149, 150, 151, 152, 153, 154, 155, 157, 157, 148, 159, 160, 161, 162, 163, 164, 165, 166, 167, 168, 157, 157, 235],
  [0, 1, 2, 8, 4, 29, 6, 7, 8, 9, 8, 11, 12, 13, 14, 15, 16, 17, 18, 19, 20, 21, 22, 23, 24, 25, 26, 27, 29, 29, 20, 31, 32, 33, 34, 35, 36, 37, 38, 39, 40, 29, 29, 235],
  [0, 1, 2, 157, 4, 157, 6, 7, 136, 9, 157, 139, 140, 141, 142, 143, 16, 17, 18, 147, 148, 149, 150, 23, 152, 153, 154, 27, 157, 157, 148, 159, 160, 161, 162, 163, 164, 165, 166, 167, 168, 157, 157, 235],
  [0, 1, 2, 10, 4, 29, 6, 7, 8, 9, 10, 139, 12, 141, 14, 143, 16, 17, 18, 19, 20, 21, 22, 23, 24, 25, 26, 27, 29, 29, 20, 159, 160, 161, 162, 35, 164, 165, 166, 167, 168, 29, 29, 235],
  [0, 1, 2, 11, 4, 157, 6, 7, 8, 50, 11, 11, 12, 141, 14, 143, 16, 17, 18, 147, 20, 149, 22, 23, 152, 153, 154, 27, 157, 157, 20, 159, 160, 161, 162, 163, 164, 165, 166, 167, 168, 157, 157, 235],
  [0, 1, 2, 12, 4, 157, 6, 7, 136, 9, 12, 139, 12, 141, 14, 143, 16, 17, 18, 147, 20, 149, 22, 23, 152, 153, 154, 27, 157, 157, 20, 159, 160, 161, 162, 163, 164, 165, 166, 167, 168, 157, 157, 235],
  [0, 1, 2, 13, 4, 29, 6, 7, 8, 9, 13, 11, 12, 13, 14, 143, 16, 17, 18, 19, 20, 21, 22, 23, 24, 25, 26, 27, 29, 29, 20, 31, 32, 33, 34, 35, 36, 37, 38, 39, 40, 29, 29, 235],
  [0, 1, 2, 14, 4, 157, 6, 7, 136, 9, 14, 139, 12, 141, 14, 143, 16, 17, 18, 147, 20, 149, 22, 23, 24, 153, 154, 27, 157, 157, 20, 159, 160, 161, 162, 163, 164, 165, 166, 167, 168, 157, 157, 235],
  [0, 1, 2, 15, 4, 157, 6, 7, 8, 9, 15, 139, 140, 141, 142, 143, 16, 17, 18, 147, 148, 149, 22, 23, 152, 153, 154, 27, 157, 157, 148, 159, 160, 161, 162, 163, 164, 165, 166, 167, 168, 157, 157, 235],
  [0, 1, 2, 16, 4, 157, 6, 7, 8, 48, 16, 139, 12, 141, 14, 143, 16, 17, 18, 147, 20, 149, 22, 23, 152, 25, 26, 27, 157, 157, 20, 159, 160, 161, 162, 163, 164, 165, 166, 167, 168, 157, 157, 235],
  [0, 1, 2, 17, 4, 29, 6, 7, 8, 49, 17, 139, 12, 141, 14, 143, 16, 17, 18, 147, 20, 149, 22, 23, 24, 25, 26, 27, 29, 29, 20, 159, 160, 161, 162, 35, 164, 165, 166, 167, 168, 29, 29, 235],
  [0, 1, 2, 18, 4, 157, 6, 7, 8, 9, 18, 139, 12, 141, 14, 143, 16, 17, 18, 19, 20, 149, 22, 23, 152, 153, 154, 27, 157, 157, 20, 159, 160, 161, 162, 163, 164, 165, 166, 167, 168, 157, 157, 235],
  [0, 1, 2, 19, 4, 157, 6, 7, 8, 9, 19, 139, 12, 141, 14, 143, 16, 17, 18, 19, 20, 149, 22, 23, 152, 153, 154, 27, 157, 157, 20, 159, 160, 161, 162, 163, 164, 165, 166, 167, 168, 157, 157, 235],
  [0, 1, 2, 20, 4, 157, 6, 7, 8, 9, 20, 139, 12, 141, 14, 143, 16, 17, 18, 147, 20, 149, 22, 23, 152, 153, 154, 27, 157, 157, 20, 159, 160, 161, 162, 163, 164, 165, 166, 167, 168, 157, 157, 235],
  [0, 1, 2, 21, 4, 29, 6, 7, 8, 46, 21, 11, 12, 13, 14, 15, 16, 17, 18, 19, 20, 21, 22, 23, 24, 25, 26, 27, 29, 29, 20, 31, 32, 33, 34, 35, 36, 37, 38, 39, 40, 29, 29, 235],
  [0, 1, 2, 22, 4, 29, 6, 7, 8, 47, 22, 11, 12, 13, 14, 15, 16, 17, 18, 19, 20, 21, 22, 23, 24, 25, 26, 27, 29, 29, 20, 31, 32, 33, 34, 35, 36, 37, 38, 39, 40, 29, 29, 235],
  [0, 1, 2, 23, 4, 29, 6, 7, 8, 9, 23, 139, 12, 141, 14, 143, 16, 17, 18, 147, 20, 149, 22, 23, 24, 153, 154, 27, 29, 29, 20, 159, 160, 161, 162, 35, 164, 165, 166, 167, 168, 29, 29, 235],
  [0, 1, 2, 24, 4, 29, 6, 7, 8, 9, 24, 139, 12, 141, 14, 143, 16, 17, 18, 19, 20, 21, 22, 23, 24, 25, 26, 27, 29, 29, 20, 159, 160, 161, 162, 35, 164, 165, 166, 167, 168, 29, 29, 235],
  [0, 1, 2, 25, 4, 29, 6, 7, 8, 9, 25, 139, 12, 141, 14, 143, 16, 17, 18, 147, 20, 21, 22, 23, 24, 153, 154, 27, 29, 29, 20, 159, 160, 161, 162, 35, 164, 165, 166, 167, 168, 29, 29, 235],
  [0, 1, 2, 26, 4, 29, 6, 7, 8, 9, 26, 139, 12, 141, 14, 143, 16, 17, 18, 147, 20, 21, 22, 23, 24, 153, 154, 27, 29, 29, 20, 31, 32, 33, 34, 35, 36, 37, 38, 39, 168, 29, 29, 235],
  [0, 1, 2, 27, 4, 157, 6, 7, 8, 9, 27, 139, 12, 141, 14, 143, 16, 17, 18, 147, 20, 149, 22, 23, 24, 153, 154, 27, 157, 157, 20, 159, 160, 161, 162, 35, 164, 165, 166, 167, 168, 157, 157, 235],
  [0, 1, 2, 29, 4, 29, 6, 7, 8, 9, 29, 139, 12, 141, 14, 143, 16, 17, 18, 19, 20, 21, 22, 23, 24, 25, 26, 27, 29, 29, 20, 159, 160, 161, 162, 35, 164, 165, 166, 167, 168, 29, 29, 235],
  [0, 1, 2, 29, 4, 29, 6, 7, 8, 9, 29, 139, 12, 141, 14, 143, 16, 17, 18, 19, 20, 21, 22, 23, 24, 25, 26, 27, 29, 29, 20, 159, 160, 161, 162, 35, 164, 165, 166, 167, 168, 29, 29, 235],
  [0, 1, 2, 20, 4, 157, 6, 7, 8, 9, 20, 139, 12, 141, 14, 143, 16, 17, 18, 147, 20, 149, 22, 23, 152, 153, 154, 27, 157, 157, 20, 159, 160, 161, 162, 163, 164, 165, 166, 167, 168, 157, 157, 235],
  [0, 1, 2, 31, 4, 157, 6, 7, 8, 9, 31, 139, 12, 141, 14, 143, 16, 17, 18, 19, 20, 149, 22, 23, 152, 25, 154, 27, 157, 157, 20, 159, 32, 161, 162, 163, 164, 165, 166, 167, 168, 157, 157, 235],
  [0, 1, 2, 32, 4, 157, 6, 7, 8, 9, 32, 139, 12, 141, 14, 143, 16, 17, 18, 19, 20, 149, 22, 23, 152, 25, 154, 27, 157, 157, 20, 159, 160, 161, 162, 163, 164, 165, 166, 167, 168, 157, 157, 235],
  [0, 1, 2, 33, 4, 157, 6, 7, 8, 9, 33, 139, 12, 141, 14, 143, 16, 17, 18, 19, 20, 149, 22, 23, 152, 25, 154, 27, 157, 157, 20, 159, 160, 161, 162, 163, 164, 165, 38, 39, 168, 157, 157, 235],
  [0, 1, 2, 34, 4, 157, 6, 7, 8, 9, 34, 139, 12, 141, 14, 143, 16, 17, 18, 19, 20, 149, 22, 23, 152, 25, 154, 27, 157, 157, 20, 159, 160, 161, 162, 163, 164, 165, 166, 39, 168, 157, 157, 235],
  [0, 1, 2, 35, 4, 29, 6, 7, 8, 9, 35, 139, 51, 141, 51, 143, 16, 17, 18, 19, 20, 21, 22, 23, 24, 25, 26, 27, 29, 29, 20, 159, 160, 161, 162, 35, 164, 165, 166, 167, 168, 29, 29, 235],
  [0, 1, 2, 36, 4, 157, 6, 7, 8, 9, 36, 139, 12, 141, 14, 143, 16, 17, 18, 19, 20, 149, 22, 23, 152, 25, 154, 27, 157, 157, 20, 159, 160, 161, 162, 163, 164, 165, 166, 167, 168, 157, 157, 235],
  [0, 1, 2, 37, 4, 157, 6, 7, 8, 9, 37, 139, 12, 141, 14, 143, 16, 17, 18, 19, 20, 149, 22, 23, 152, 25, 154, 27, 157, 157, 20, 159, 160, 33, 34, 163, 164, 37, 38, 167, 168, 157, 157, 235],
  [0, 1, 2, 38, 4, 157, 6, 7, 8, 9, 38, 139, 12, 141, 14, 143, 16, 17, 18, 19, 20, 149, 22, 23, 152, 25, 154, 27, 157, 157, 20, 159, 160, 161, 162, 163, 164, 165, 38, 39, 168, 157, 157, 235],
  [0, 1, 2, 39, 4, 157, 6, 7, 8, 9, 39, 139, 12, 141, 14, 143, 16, 17, 18, 19, 20, 149, 22, 23, 152, 25, 154, 27, 157, 157, 20, 159, 160, 161, 162, 163, 164, 165, 166, 39, 168, 157, 157, 235],
  [0, 1, 2, 40, 4, 157, 6, 7, 8, 9, 40, 139, 12, 141, 14, 143, 16, 17, 18, 147, 20, 149, 22, 23, 152, 153, 154, 27, 157, 157, 20, 159, 160, 161, 162, 163, 164, 165, 166, 167, 52, 157, 157, 235],
  [0, 1, 2, 29, 4, 29, 6, 7, 8, 9, 29, 139, 12, 141, 14, 143, 16, 17, 18, 19, 20, 21, 22, 23, 24, 25, 26, 27, 29, 29, 20, 159, 160, 161, 162, 35, 164, 165, 166, 167, 168, 29, 29, 235],
  [0, 1, 2, 29, 4, 29, 6, 7, 8, 9, 29, 139, 12, 141, 14, 143, 16, 17, 18, 19, 20, 21, 22, 23, 24, 25, 26, 27, 29, 29, 20, 159, 160, 161, 162, 35, 164, 165, 166, 167, 168, 29, 29, 235],
  [0, 1, 2, 157, 4, 157, 6, 7, 136, 9, 157, 139, 12, 141, 14, 143, 16, 17, 18, 147, 20, 149, 22, 23, 152, 153, 154, 27, 157, 157, 20, 159, 160, 161, 162, 163, 164, 165, 166, 167, 168, 157, 157, 235],
  [0, 1, 2, 29, 4, 29, 6, 7, 8, 9, 29, 11, 12, 13, 14, 15, 16, 17, 18, 19, 20, 21, 22, 23, 24, 25, 26, 27, 29, 29, 20, 31, 32, 33, 34, 35, 36, 37, 38, 39, 40, 29, 29, 43],
  [0, 1, 2, 157, 4, 157, 134, 7, 136, 45, 157, 139, 140, 141, 142, 143, 144, 145, 146, 147, 148, 149, 150, 151, 152, 153, 154, 155, 157, 157, 148, 159, 160, 161, 162, 163, 164, 165, 166, 167, 168, 157, 157, 235],
  [0, 1, 2, 29, 4, 29, 6, 7, 8, 46, 29, 11, 12, 13, 14, 15, 16, 17, 18, 19, 20, 21, 22, 23, 24, 25, 26, 27, 29, 29, 20, 31, 32, 33, 34, 35, 36, 37, 38, 39, 40, 29, 29, 235],
  [0, 1, 2, 157, 4, 157, 6, 7, 136, 47, 157, 139, 140, 141, 142, 143, 16, 17, 18, 147, 148, 21, 150, 23, 152, 153, 154, 27, 157, 157, 148, 159, 160, 161, 162, 163, 164, 165, 166, 167, 168, 157, 157, 235],
  [0, 1, 2, 157, 4, 157, 6, 7, 136, 48, 157, 139, 140, 141, 142, 143, 16, 17, 18, 147, 20, 149, 150, 23, 152, 153, 154, 27, 157, 157, 20, 159, 160, 161, 162, 163, 164, 165, 166, 167, 168, 157, 157, 235],
  [0, 1, 2, 157, 4, 157, 6, 7, 136, 49, 157, 139, 140, 141, 142, 143, 16, 17, 18, 147, 20, 149, 150, 23, 152, 153, 154, 27, 157, 157, 20, 159, 160, 161, 162, 163, 164, 165, 166, 167, 168, 157, 157, 235],
  [0, 1, 2, 157, 4, 157, 6, 7, 136, 50, 157, 11, 140, 141, 142, 143, 16, 17, 18, 147, 148, 149, 150, 23, 152, 153, 154, 27, 157, 157, 148, 159, 160, 161, 162, 163, 164, 165, 166, 167, 168, 157, 157, 235],
  [0, 1, 2, 51, 4, 29, 6, 7, 8, 9, 51, 11, 12, 13, 14, 143, 16, 17, 18, 19, 20, 21, 22, 23, 24, 25, 26, 27, 29, 29, 20, 31, 32, 33, 34, 35, 36, 37, 38, 39, 40, 29, 29, 235],
  [0, 1, 2, 52, 4, 157, 6, 7, 8, 9, 52, 139, 12, 141, 14, 143, 16, 17, 18, 147, 20, 149, 22, 23, 152, 153, 154, 27, 157, 157, 20, 159, 160, 161, 162, 163, 164, 165, 166, 167, 168, 157, 157, 235]]



/-! ### The property classifier

`break_property` in lib.rs reads two tables generated by build.rs from the
Unicode `LineBreak.txt` data file.  The generation pipeline (regex parsing
aside, which only extracts `(start, end, class)` records) lives in build.rs
`main` and is embedded below; the data file itself is not part of the
sources, so a fragment of it is modelled from the spec. -/

/-- `default_value` from build.rs: the class key for code points not listed
in the data file. -/
def default_value (codepoint : Nat) : String :=
  -- The unassigned code points in the following blocks default to "ID"
  if (0x3400 ≤ codepoint ∧ codepoint ≤ 0x4DBF) ∨ (0x4E00 ≤ codepoint ∧ codepoint ≤ 0x9FFF)
      ∨ (0xF900 ≤ codepoint ∧ codepoint ≤ 0xFAFF) then "ID"
  -- All undesignated code points in Planes 2 and 3 default to "ID"
  else if (0x20000 ≤ codepoint ∧ codepoint ≤ 0x2FFFD)
      ∨ (0x30000 ≤ codepoint ∧ codepoint ≤ 0x3FFFD) then "ID"
  -- All unassigned code points in the following Plane 1 range default to "ID"
  else if 0x1F000 ≤ codepoint ∧ codepoint ≤ 0x1FFFD then "ID"
  -- The unassigned code points in the following block default to "PR"
  else if 0x20A0 ≤ codepoint ∧ codepoint ≤ 0x20CF then "PR"
  -- All code points not listed explicitly are given the value "XX"
  else "XX"

/-- `lb_class_by_key` from build.rs.  The catch-all arm of the source is
`unreachable!()`, modelled as `none`. -/
def lb_class_by_key (k : String) : Option Nat :=
  match k with
  | "BK" => some 0
  | "CR" => some 1
  | "LF" => some 2
  | "CM" => some 3
  | "NL" => some 4
  | "SG" => some 5
  | "WJ" => some 6
  | "ZW" => some 7
  | "GL" => some 8
  | "SP" => some 9
  | "ZWJ" => some 10
  | "B2" => some 11
  | "BA" => some 12
  | "BB" => some 13
  | "HY" => some 14
  | "CB" => some 15
  | "CL" => some 16
  | "CP" => some 17
  | "EX" => some 18
  | "IN" => some 19
  | "NS" => some 20
  | "OP" => some 21
  | "QU" => some 22
  | "IS" => some 23
  | "NU" => some 24
  | "PO" => some 25
  | "PR" => some 26
  | "SY" => some 27
  | "AI" => some 28
  | "AL" => some 29
  | "CJ" => some 30
  | "EB" => some 31
  | "EM" => some 32
  | "H2" => some 33
  | "H3" => some 34
  | "HL" => some 35
  | "ID" => some 36
  | "JL" => some 37
  | "JV" => some 38
  | "JT" => some 39
  | "RI" => some 40
  | "SA" => some 41
  | "XX" => some 42
  | _ => none

/-- The composition `lb_class_by_key(default_value(code))` used when filling
gaps in the data; `default_value` only returns `"ID"`, `"PR"` or `"XX"`, so
the lookup never hits the unreachable arm (`lb_class_by_key_default` below). -/
def defaultClass (codepoint : Nat) : Nat :=
  (lb_class_by_key (default_value codepoint)).getD 0


/-- Modelled from the spec: a fragment of the Unicode 12.1 `LineBreak.txt`
build input, which is not among the sources.  Each entry is one parsed data
record `(start, end, class)` — the regex in build.rs turns a line
`start[..end];CLASS` into exactly this triple, with `end` defaulting to
`start` and the class key resolved through `lb_class_by_key`.  The fragment
keeps the well-known ASCII records, the zero-width joiner and the final
plane-16 private-use record of that Unicode version (contiguous records of
equal class are merged into one range); every other code point is filled by
the defaulting rules, exactly as build.rs does for the gaps of the full file. -/
def lineBreakData : List (Nat × Nat × Nat) := [
  (0x0000, 0x0008, CM),
  (0x0009, 0x0009, BA),
  (0x000A, 0x000A, LF),
  (0x000B, 0x000C, BK),
  (0x000D, 0x000D, CR),
  (0x000E, 0x001F, CM),
  (0x0020, 0x0020, SP),
  (0x0021, 0x0021, EX),
  (0x0022, 0x0022, QU),
  (0x0023, 0x0023, AL),
  (0x0024, 0x0024, PR),
  (0x0025, 0x0025, PO),
  (0x0026, 0x0026, AL),
  (0x0027, 0x0027, QU),
  (0x0028, 0x0028, OP),
  (0x0029, 0x0029, CP),
  (0x002A, 0x002A, AL),
  (0x002B, 0x002B, PR),
  (0x002C, 0x002C, IS),
  (0x002D, 0x002D, HY),
  (0x002E, 0x002E, IS),
  (0x002F, 0x002F, SY),
  (0x0030, 0x0039, NU),
  (0x003A, 0x003B, IS),
  (0x003C, 0x003E, AL),
  (0x003F, 0x003F, EX),
  (0x0040, 0x0040, AL),
  (0x0041, 0x005A, AL),
  (0x005B, 0x005B, OP),
  (0x005C, 0x005C, AL),
  (0x005D, 0x005D, CP),
  (0x005E, 0x0060, AL),
  (0x0061, 0x007A, AL),
  (0x007B, 0x007B, OP),
  (0x007C, 0x007C, BA),
  (0x007D, 0x007D, CL),
  (0x007E, 0x007E, AL),
  (0x200D, 0x200D, ZWJ),
  (0x100000, 0x10FFFD, XX)
]

/-- The flat sequence of class values produced by the `flat_map` in build.rs
`main`: each record `(start, end, lb)` contributes the values for code points
`last..=end`, gaps being filled with `lb_class_by_key(default_value(code))`,
and `last` then advances to `end + 1`. -/
def valuesFrom (last : Nat) : List (Nat × Nat × Nat) → List Nat
  | [] => []
  | (start, stop, lb) :: rest =>
    ((List.range' last (stop + 1 - last)).map (fun code =>
      if code < start then defaultClass code else lb)) ++ valuesFrom (stop + 1) rest

/-- Split the value stream into pages of 256 entries (the last page may be
shorter), as the `while should_continue` loop in build.rs does. -/
def chunks256 : List Nat → List (List Nat)
  | [] => []
  | a :: l => ((a :: l).take 256) :: chunks256 ((a :: l).drop 256)
termination_by l => l.length
decreasing_by simp only [List.length_drop, List.length_cons]; omega

/-- The uniformity test `page.iter().all(|v| v == first)` of build.rs
(pages are never empty, so `headD 0` is the `first` element). -/
def pageIsUniform (page : List Nat) : Bool :=
  page.all (fun v => v == page.headD 0)

/-- A stored page, padded to 256 entries with `XX` as build.rs does
(`.chain((page.len()..256).map(|_| lb_class_by_key("XX")))`). -/
def padPage (page : List Nat) : List Nat :=
  page ++ List.replicate (256 - page.length) XX

/-- One iteration of the page-emitting loop of build.rs: a uniform page
collapses to the sentinel `first | UNIFORM_PAGE` in the index array, any other
page is stored (padded) and indexed by its position among stored pages. -/
def buildStep (acc : List (List Nat) × List Nat) (page : List Nat) :
    List (List Nat) × List Nat :=
  if pageIsUniform page then (acc.1, acc.2 ++ [page.headD 0 ||| UNIFORM_PAGE])
  else (acc.1 ++ [padPage page], acc.2 ++ [acc.1.length])

/-- The two generated tables `(BREAK_PROP_DATA, PAGE_INDICES)`. -/
def buildPages (values : List Nat) : List (List Nat) × List Nat :=
  (chunks256 values).foldl buildStep ([], [])

/-- The pair of generated tables written into `tables.rs` by build.rs:
the first component is `BREAK_PROP_DATA`, the second `PAGE_INDICES`. -/
def generatedTables : List (List Nat) × List Nat := buildPages (valuesFrom 0 lineBreakData)

/-- `usize::MAX`: `PAGE_INDICES` holds `usize` values and
`!UNIFORM_PAGE` complements within 64 bits. -/
def USIZE_MAX : Nat := 2 ^ 64 - 1

/-- The body of `break_property` from lib.rs over explicit tables:
`PAGE_INDICES[cp >> 8]` (a panic — `none` — when out of bounds), then either
the uniform sentinel decoded by `(pi & !UNIFORM_PAGE) as u8`, or
`BREAK_PROP_DATA[pi][cp & 0xFF]`. -/
def lookupTables (data : List (List Nat)) (idxs : List Nat) (row k : Nat) : Option Nat :=
  match idxs.get? row with
  | none => none
  | some pi =>
    if pi &&& UNIFORM_PAGE ≠ 0 then
      some ((pi &&& (UNIFORM_PAGE ^^^ USIZE_MAX)) % 256)
    else
      match data.get? pi with
      | none => none
      | some page => page.get? k

/-- `break_property` from lib.rs (`codepoint` is the `u32` argument), reading
`BREAK_PROP_DATA = generatedTables.1` and `PAGE_INDICES = generatedTables.2`.
Out-of-bounds indexing, which panics in Rust, yields `none`. -/
def break_property (codepoint : Nat) : Option Nat :=
  lookupTables generatedTables.1 generatedTables.2 (codepoint >>> 8) (codepoint &&& 0xFF)

/-- Resolution of a code point directly against the record list: the first
record containing it gives its class, a code point before the first record
that could contain it gets the default.  `valuesFrom` realizes exactly this
(`valuesFrom_get` below). -/
def resolve : List (Nat × Nat × Nat) → Nat → Nat
  | [], c => defaultClass c
  | (start, stop, lb) :: rest, c =>
    if c < start then defaultClass c
    else if c ≤ stop then lb
    else resolve rest c

/-- Well-formedness of a record list continuing from `last`: ranges are
ascending and non-overlapping (spec, section 6). -/
def ascFrom (last : Nat) : List (Nat × Nat × Nat) → Bool
  | [] => true
  | (start, stop, _) :: rest =>
    decide (last ≤ start) && decide (start ≤ stop) && ascFrom (stop + 1) rest

/-- One past the last covered code point after processing the records. -/
def endOf (last : Nat) : List (Nat × Nat × Nat) → Nat
  | [] => last
  | (_, stop, _) :: rest => endOf (stop + 1) rest

/-- The total classifier value for every code point the tables cover: the
record resolution below the covered length, the `XX` padding above it. -/
def classOf (cp : Nat) : Nat :=
  if cp < 0x10FFFE then resolve lineBreakData cp else XX

/-! ### The break scanner (`linebreaks` in lib.rs)

The scanner is parameterized by the pair table so that facts can be proved
against the literal `pairTableData` and transported to `PAIR_TABLE` by
`pairTable_eq`; `linebreaks` itself is fixed to `PAIR_TABLE`. -/

/-- `BreakOpportunity` from lib.rs. -/
inductive BreakOpportunity
  | Mandatory
  | Allowed
deriving DecidableEq, Repr

/-- Byte offsets paired with characters starting at offset `i`:
`s.char_indices()` of the string's UTF-8 form. -/
def charIndices (i : Nat) : List Char → List (Nat × Char)
  | [] => []
  | c :: cs => (i, c) :: charIndices (i + c.utf8Size) cs

/-- `s.len()`: the UTF-8 byte length of the string. -/
def utf8Len : List Char → Nat
  | [] => 0
  | c :: cs => c.utf8Size + utf8Len cs

/-- `!(ALLOWED_BREAK_BIT | MANDATORY_BREAK_BIT)` on a `u8`: the mask keeping
only the next-state bits of a cell. -/
def STATE_MASK : Nat := (ALLOWED_BREAK_BIT ||| MANDATORY_BREAK_BIT) ^^^ 0xFF

/-- The `scan` closure of `linebreaks`, carried out over the whole list.
The state is `(pair-table row, previous class was ZWJ)`; each input element
is `(byte offset, class)`; each output element is
`(offset, is_break, is_mandatory)`.  The pair-table indexing
`PAIR_TABLE[state.0][cls]` panics when out of bounds: `none`. -/
def scanOptW (tbl : Table) (st : Nat × Bool) :
    List (Nat × Nat) → Option (List (Nat × Bool × Bool))
  | [] => some []
  | (i, cls) :: rest =>
    match (tbl.get? st.1).bind (fun row => row.get? cls) with
    | none => none
    | some val =>
      let is_mandatory := val &&& MANDATORY_BREAK_BIT != 0
      let is_break := (val &&& ALLOWED_BREAK_BIT != 0) && (!st.2 || is_mandatory)
      (scanOptW tbl (val &&& STATE_MASK, cls == ZWJ) rest).map
        (fun out => (i, is_break, is_mandatory) :: out)

/-- `linebreaks` from lib.rs: classify each code point, append the
end-of-text element, scan, and keep `(offset, kind)` where the break gate
passed.  A panic anywhere (impossible, see `linebreaks_isSome`) is `none`. -/
def linebreaks (s : List Char) : Option (List (Nat × BreakOpportunity)) :=
  ((charIndices 0 s).mapM (fun p =>
      (break_property p.2.toNat).map (fun cls => (p.1, cls)))).bind
    (fun classified =>
      (scanOptW PAIR_TABLE (SOT, false) (classified ++ [(utf8Len s, EOT)])).map
        (fun triples =>
          (triples.filter (fun t => t.2.1)).map (fun t =>
            (t.1, if t.2.2 then BreakOpportunity.Mandatory else BreakOpportunity.Allowed))))

/-- Total version of the scan over a table whose lookups are in bounds. -/
def scanTW (tbl : Table) (st : Nat × Bool) : List (Nat × Nat) → List (Nat × Bool × Bool)
  | [] => []
  | (i, cls) :: rest =>
    let val := cellOf tbl st.1 cls
    let is_mandatory := val &&& MANDATORY_BREAK_BIT != 0
    let is_break := (val &&& ALLOWED_BREAK_BIT != 0) && (!st.2 || is_mandatory)
    (i, is_break, is_mandatory) :: scanTW tbl (val &&& STATE_MASK, cls == ZWJ) rest

/-- The classified sequence of the scan, using the total classifier. -/
def classifyT (s : List Char) : List (Nat × Nat) :=
  (charIndices 0 s).map (fun p => (p.1, classOf p.2.toNat))

/-- The full element sequence fed to the scan: classified characters plus the
virtual end-of-text element. -/
def seqT (s : List Char) : List (Nat × Nat) :=
  classifyT s ++ [(utf8Len s, EOT)]

/-- Total version of `linebreaks` over an explicit table. -/
def linebreaksTW (tbl : Table) (s : List Char) : List (Nat × BreakOpportunity) :=
  ((scanTW tbl (SOT, false) (seqT s)).filter (fun t => t.2.1)).map (fun t =>
    (t.1, if t.2.2 then BreakOpportunity.Mandatory else BreakOpportunity.Allowed))

/-! ### The safe-pair derivation (build.rs, `unsafe_pairs` and the generated
`is_safe_pair`) -/

/-- `unsafe_pairs` from build.rs `main` over an explicit table: for every
ordered class pair `(i, j)` (iteration order: `j` outer, `i` inner), collect
the pair unless the transition taken on `j` from the state reached after
consuming `i` is the same for every possible predecessor row. -/
def unsafePairsOf (t : Table) : List (Nat × Nat) :=
  (List.range NUM_CLASSES).flatMap (fun j =>
    (List.range NUM_CLASSES).filterMap (fun i =>
      -- all states that could have resulted from break class i
      let possible_states := t.map (fun row => (row.getD i 0) &&& STATE_MASK)
      -- map to the respective state transitions and check they are all equal
      match possible_states.foldlM (fun acc s =>
          match Option.filter (fun prev => cellOf t s j != prev) acc with
          | some _ => none
          | none => some (some (cellOf t s j))) (none : Option Nat) with
      | some _ => none
      | none => some (i, j)))

/-- The generated `is_safe_pair`: `false` exactly on the derived unsafe
pairs (the generated `if let (..)|(..) = (a, b)` pattern is membership in
that list). -/
def is_safe_pair (a b : Nat) : Bool :=
  !((unsafePairsOf PAIR_TABLE).contains (a, b))

/-! ### The declared-order table (what the spec's words describe)

`declaredOrderTable` applies the rules strictly in declared order, so that on
overlapping cells the later-declared rule's write lands last.  This follows
the spec's description of the rule compiler; the macro expansion
(`applyRules`, hence `PAIR_TABLE`) applies them in reverse declared order. -/
def declaredOrderTable : Table := RULES.foldl applyRule initialPairTable

/-- One state advance of the scan: next pair-table row (bits stripped) and
the previous-class-was-ZWJ flag. -/
def nextSt (tbl : Table) (st : Nat × Bool) (p : Nat × Nat) : Nat × Bool :=
  (cellOf tbl st.1 p.2 &&& STATE_MASK, p.2 == ZWJ)

/-- The scan state after consuming a list of elements. -/
def scanState (tbl : Table) (st : Nat × Bool) (ps : List (Nat × Nat)) : Nat × Bool :=
  ps.foldl (nextSt tbl) st


/-- The step function of the `try_fold` in `unsafe_pairs`: record the
transition taken from state `s` on class `j`, failing once it differs from
the previously recorded one. -/
def tryStep (t : Table) (j : Nat) (acc : Option Nat) (s : Nat) : Option (Option Nat) :=
  match Option.filter (fun prev => cellOf t s j != prev) acc with
  | some _ => none
  | none => some (some (cellOf t s j))

/-- The class of the element fed to the scan right after a split point:
first following character's class, or end-of-text. -/
def headCls : List Char → Nat
  | [] => EOT
  | c :: _ => classOf c.toNat

end UnicodeLinebreak

namespace UnicodeLinebreak

/-! ## Theorems -/

/-- Stage checks: the rule segments, applied in the macro's order (later
segments first), produce the intermediate and final tables. -/
theorem stage5_eq : applyRules RULES5 initialPairTable = stage5Data := by decide

/-- Stage check, continuing from `stage5_eq`. -/
theorem stage4_eq : applyRules RULES4 stage5Data = stage4Data := by decide

/-- Stage check, continuing from `stage4_eq`. -/
theorem stage3_eq : applyRules RULES3 stage4Data = stage3Data := by decide

/-- Stage check, continuing from `stage3_eq`. -/
theorem stage2_eq : applyRules RULES2 stage3Data = stage2Data := by decide

/-- Stage check, continuing from `stage2_eq`. -/
theorem stage1_eq : applyRules RULES1 stage2Data = pairTableData := by decide

/-- Applying a concatenated rule list is applying the second part first,
then the first part (the macro expands the tail before the head). -/
theorem applyRules_append (l₁ l₂ : List Rule) (t : Table) :
    applyRules (l₁ ++ l₂) t = applyRules l₁ (applyRules l₂ t) := by
  induction l₁ with
  | nil => rfl
  | cons r rs ih => simp only [List.cons_append, applyRules, List.append_eq, ih]

/-- The pair table evaluates to the literal `pairTableData`.  All finite facts
about `PAIR_TABLE` below are proved by rewriting with this equation. -/
theorem pairTable_eq : PAIR_TABLE = pairTableData := by
  show applyRules (RULES1 ++ RULES2 ++ RULES3 ++ RULES4 ++ RULES5) initialPairTable = _
  rw [applyRules_append, applyRules_append, applyRules_append, applyRules_append,
    stage5_eq, stage4_eq, stage3_eq, stage2_eq, stage1_eq]

/-- The defaulting composition is total: it yields exactly `defaultClass`. -/
theorem lb_class_by_key_default (codepoint : Nat) :
    lb_class_by_key (default_value codepoint) = some (defaultClass codepoint) := by
  unfold defaultClass default_value
  split
  · rfl
  · split
    · rfl
    · split
      · rfl
      · split <;> rfl

end UnicodeLinebreak

namespace UnicodeLinebreak

/-! ### Correctness of the flat value stream -/

theorem valuesFrom_length (rs : List (Nat × Nat × Nat)) : ∀ last, ascFrom last rs = true →
    (valuesFrom last rs).length + last = endOf last rs := by
  induction rs with
  | nil => intro last _; simp [valuesFrom, endOf]
  | cons r rest ih =>
    obtain ⟨start, stop, lb⟩ := r
    intro last hasc
    simp only [ascFrom, Bool.and_eq_true, decide_eq_true_eq] at hasc
    obtain ⟨⟨h1, h2⟩, h3⟩ := hasc
    have := ih (stop + 1) h3
    simp only [valuesFrom, endOf, List.length_append, List.length_map, List.length_range']
    omega

theorem valuesFrom_get (rs : List (Nat × Nat × Nat)) : ∀ last c, ascFrom last rs = true →
    last ≤ c → c < endOf last rs →
    (valuesFrom last rs).get? (c - last) = some (resolve rs c) := by
  induction rs with
  | nil =>
    intro last c _ hle hlt
    simp only [endOf] at hlt
    omega
  | cons r rest ih =>
    obtain ⟨start, stop, lb⟩ := r
    intro last c hasc hle hlt
    simp only [ascFrom, Bool.and_eq_true, decide_eq_true_eq] at hasc
    obtain ⟨⟨h1, h2⟩, h3⟩ := hasc
    simp only [valuesFrom, endOf, resolve]
    by_cases hc : c ≤ stop
    · rw [List.get?_append]
      · rw [List.get?_map, List.get?_range' _ _ (by omega : c - last < stop + 1 - last)]
        simp only [Option.map_some']
        have hcc : last + 1 * (c - last) = c := by omega
        rw [hcc]
        by_cases hs : c < start
        · rw [if_pos hs, if_pos hs]
        · rw [if_neg hs, if_neg hs, if_pos hc]
      · simp only [List.length_map, List.length_range']
        omega
    · rw [List.get?_append_right]
      · simp only [List.length_map, List.length_range']
        have heq : c - last - (stop + 1 - last) = c - (stop + 1) := by omega
        rw [heq, ih (stop + 1) c h3 (by omega) (by exact hlt)]
        rw [if_neg (by omega), if_neg (by omega)]
      · simp only [List.length_map, List.length_range']
        omega

theorem valuesFrom_lt_256 (rs : List (Nat × Nat × Nat)) : ∀ last,
    (∀ r ∈ rs, r.2.2 < 256) → ∀ v ∈ valuesFrom last rs, v < 256 := by
  induction rs with
  | nil => intro last _ v hv; simp [valuesFrom] at hv
  | cons r rest ih =>
    obtain ⟨start, stop, lb⟩ := r
    intro last hcls v hv
    simp only [valuesFrom, List.mem_append, List.mem_map] at hv
    rcases hv with ⟨code, _, heq⟩ | hv
    · subst heq
      by_cases h : code < start
      · rw [if_pos h]
        have : lb_class_by_key (default_value code) = some (defaultClass code) :=
          lb_class_by_key_default code
        -- defaultClass is one of the 43 class codes
        unfold defaultClass default_value
        split
        · decide
        · split
          · decide
          · split
            · decide
            · split <;> decide
      · rw [if_neg h]
        exact hcls (start, stop, lb) (List.mem_cons_self _ _)
    · exact ih (stop + 1) (fun r hr => hcls r (List.mem_cons_of_mem _ hr)) v hv

end UnicodeLinebreak

namespace UnicodeLinebreak

/-! ### Correctness of the paged tables -/

theorem chunks256_get (q : Nat) : ∀ l : List Nat, 256 * q < l.length →
    (chunks256 l).get? q = some ((l.drop (256 * q)).take 256) := by
  induction q with
  | zero =>
    intro l hl
    cases l with
    | nil => simp at hl
    | cons a l => simp [chunks256]
  | succ q ih =>
    intro l hl
    cases l with
    | nil => simp at hl
    | cons a l =>
      simp only [chunks256, List.get?_cons_succ]
      simp only [List.length_cons] at hl
      have hlen : 256 * q < ((a :: l).drop 256).length := by
        simp only [List.length_drop, List.length_cons]; omega
      rw [ih _ hlen, List.drop_drop,
        show 256 + 256 * q = 256 * (q + 1) from by omega]

theorem chunks256_get_none (q : Nat) : ∀ l : List Nat, l.length ≤ 256 * q →
    (chunks256 l).get? q = none := by
  induction q with
  | zero =>
    intro l hl
    cases l with
    | nil => simp [chunks256]
    | cons a l => simp at hl
  | succ q ih =>
    intro l hl
    cases l with
    | nil => simp [chunks256]
    | cons a l =>
      simp only [chunks256, List.get?_cons_succ]
      simp only [List.length_cons] at hl
      exact ih _ (by simp only [List.length_drop, List.length_cons]; omega)

theorem buildStep_uniform (d : List (List Nat)) (i : List Nat) (pg : List Nat)
    (hu : pageIsUniform pg = true) :
    buildStep (d, i) pg = (d, i ++ [pg.headD 0 ||| UNIFORM_PAGE]) := by
  simp [buildStep, hu]

theorem buildStep_stored (d : List (List Nat)) (i : List Nat) (pg : List Nat)
    (hu : ¬ pageIsUniform pg = true) :
    buildStep (d, i) pg = (d ++ [padPage pg], i ++ [d.length]) := by
  simp [buildStep, hu]

theorem buildFold_snd_extend (chs : List (List Nat)) :
    ∀ d i, ∃ i', (chs.foldl buildStep (d, i)).2 = i ++ i' := by
  induction chs with
  | nil => exact fun d i => ⟨[], by simp⟩
  | cons pg rest ih =>
    intro d i
    show ∃ i', (rest.foldl buildStep (buildStep (d, i) pg)).2 = i ++ i'
    by_cases hu : pageIsUniform pg
    · rw [buildStep_uniform d i pg hu]
      obtain ⟨i', h⟩ := ih d (i ++ [pg.headD 0 ||| UNIFORM_PAGE])
      exact ⟨[pg.headD 0 ||| UNIFORM_PAGE] ++ i', by rw [h, List.append_assoc]⟩
    · rw [buildStep_stored d i pg hu]
      obtain ⟨i', h⟩ := ih (d ++ [padPage pg]) (i ++ [d.length])
      exact ⟨[d.length] ++ i', by rw [h, List.append_assoc]⟩

theorem buildFold_fst_extend (chs : List (List Nat)) :
    ∀ d i, ∃ d', (chs.foldl buildStep (d, i)).1 = d ++ d' := by
  induction chs with
  | nil => exact fun d i => ⟨[], by simp⟩
  | cons pg rest ih =>
    intro d i
    show ∃ d', (rest.foldl buildStep (buildStep (d, i) pg)).1 = d ++ d'
    by_cases hu : pageIsUniform pg
    · rw [buildStep_uniform d i pg hu]
      exact ih d _
    · rw [buildStep_stored d i pg hu]
      obtain ⟨d', h⟩ := ih (d ++ [padPage pg]) (i ++ [d.length])
      exact ⟨[padPage pg] ++ d', by rw [h, List.append_assoc]⟩

theorem buildFold_snd_length (chs : List (List Nat)) :
    ∀ d i, ((chs.foldl buildStep (d, i)).2).length = i.length + chs.length := by
  induction chs with
  | nil => intro d i; simp
  | cons pg rest ih =>
    intro d i
    show ((rest.foldl buildStep (buildStep (d, i) pg)).2).length = _
    by_cases hu : pageIsUniform pg
    · rw [buildStep_uniform d i pg hu, ih]; simp; omega
    · rw [buildStep_stored d i pg hu, ih]; simp; omega

/-- Bit tests for a uniform-page sentinel built from a head value below 256. -/
theorem uniform_sentinel_test : ∀ h : Nat, h < 256 →
    ((h ||| UNIFORM_PAGE) &&& UNIFORM_PAGE ≠ 0) ∧
    ((h ||| UNIFORM_PAGE) &&& (UNIFORM_PAGE ^^^ USIZE_MAX)) % 256 = h := by decide

/-- A stored-page index below `0x8000` fails the uniform-bit test. -/
theorem stored_index_test : ∀ pi : Nat, pi < 0x8000 → pi &&& UNIFORM_PAGE = 0 := by
  intro pi h
  have he : UNIFORM_PAGE = 2 ^ 15 := by norm_num [UNIFORM_PAGE]
  rw [he, Nat.and_two_pow, Nat.testBit_lt_two_pow (by norm_num at h ⊢; omega)]
  simp

theorem headD_lt_256 (pg : List Nat) (hv : ∀ v ∈ pg, v < 256) : pg.headD 0 < 256 := by
  match pg with
  | [] => decide
  | a :: l => exact hv a (List.mem_cons_self _ _)

theorem lookupTables_some (data : List (List Nat)) (idxs : List Nat) (row k pi : Nat)
    (h : idxs.get? row = some pi) :
    lookupTables data idxs row k =
      if pi &&& UNIFORM_PAGE ≠ 0 then
        some ((pi &&& (UNIFORM_PAGE ^^^ USIZE_MAX)) % 256)
      else
        match data.get? pi with
        | none => none
        | some page => page.get? k := by
  unfold lookupTables
  rw [h]

theorem lookupTables_none (data : List (List Nat)) (idxs : List Nat) (row k : Nat)
    (h : idxs.get? row = none) :
    lookupTables data idxs row k = none := by
  unfold lookupTables
  rw [h]

/-- Main correctness of the page-emitting fold: looking up row `i.length + q`
reads exactly the q-th chunk (through the sentinel for a uniform page, through
the stored padded page otherwise). -/
theorem buildFold_lookup (chs : List (List Nat)) :
    ∀ d i q pg, chs.get? q = some pg →
    d.length + chs.length ≤ 0x8000 →
    (∀ v ∈ pg, v < 256) →
    ∀ k,
    lookupTables (chs.foldl buildStep (d, i)).1 (chs.foldl buildStep (d, i)).2 (i.length + q) k
      = if pageIsUniform pg then some (pg.headD 0)
        else (padPage pg).get? k := by
  induction chs with
  | nil => intro d i q pg hq; simp at hq
  | cons pg0 rest ih =>
    intro d i q pg hq hbound hv k
    match q, hq with
    | 0, hq =>
      rw [List.get?_cons_zero] at hq
      injection hq with hq
      subst hq
      show lookupTables (rest.foldl buildStep (buildStep (d, i) pg0)).1
          (rest.foldl buildStep (buildStep (d, i) pg0)).2 (i.length + 0) k = _
      by_cases hu : pageIsUniform pg0
      · rw [buildStep_uniform d i pg0 hu, if_pos hu]
        obtain ⟨i', hsnd⟩ := buildFold_snd_extend rest d (i ++ [pg0.headD 0 ||| UNIFORM_PAGE])
        have hget : (rest.foldl buildStep (d, i ++ [pg0.headD 0 ||| UNIFORM_PAGE])).2.get?
            (i.length + 0) = some (pg0.headD 0 ||| UNIFORM_PAGE) := by
          rw [hsnd, List.append_assoc, Nat.add_zero,
            List.get?_append_right (Nat.le_refl _), Nat.sub_self]
          rfl
        rw [lookupTables_some _ _ _ _ _ hget]
        have hh := headD_lt_256 pg0 hv
        obtain ⟨ht, hval⟩ := uniform_sentinel_test (pg0.headD 0) hh
        rw [if_pos ht, hval]
      · rw [buildStep_stored d i pg0 hu, if_neg hu]
        obtain ⟨i', hsnd⟩ := buildFold_snd_extend rest (d ++ [padPage pg0]) (i ++ [d.length])
        obtain ⟨d', hfst⟩ := buildFold_fst_extend rest (d ++ [padPage pg0]) (i ++ [d.length])
        have hget : (rest.foldl buildStep (d ++ [padPage pg0], i ++ [d.length])).2.get?
            (i.length + 0) = some d.length := by
          rw [hsnd, List.append_assoc, Nat.add_zero,
            List.get?_append_right (Nat.le_refl _), Nat.sub_self]
          rfl
        rw [lookupTables_some _ _ _ _ _ hget]
        have hd : d.length < 0x8000 := by
          simp only [List.length_cons] at hbound; omega
        rw [if_neg (by simpa using stored_index_test d.length hd)]
        have hdget : (rest.foldl buildStep (d ++ [padPage pg0], i ++ [d.length])).1.get?
            d.length = some (padPage pg0) := by
          rw [hfst, List.append_assoc,
            List.get?_append_right (Nat.le_refl _), Nat.sub_self]
          rfl
        rw [hdget]
    | q + 1, hq =>
      rw [List.get?_cons_succ] at hq
      show lookupTables (rest.foldl buildStep (buildStep (d, i) pg0)).1
          (rest.foldl buildStep (buildStep (d, i) pg0)).2 (i.length + (q + 1)) k = _
      have hacc : ((buildStep (d, i) pg0).2).length = i.length + 1 ∧
          ((buildStep (d, i) pg0).1).length ≤ d.length + 1 := by
        by_cases hu : pageIsUniform pg0
        · rw [buildStep_uniform d i pg0 hu]; simp
        · rw [buildStep_stored d i pg0 hu]; simp
      have hrw : (buildStep (d, i) pg0) = ((buildStep (d, i) pg0).1, (buildStep (d, i) pg0).2) := rfl
      rw [hrw]
      rw [show i.length + (q + 1) = ((buildStep (d, i) pg0).2).length + q from by
        obtain ⟨h1, _⟩ := hacc; omega]
      exact ih (buildStep (d, i) pg0).1 (buildStep (d, i) pg0).2 q pg hq
        (by obtain ⟨_, h2⟩ := hacc; simp only [List.length_cons] at hbound; omega) hv k

end UnicodeLinebreak

namespace UnicodeLinebreak

/-! ### The classifier over the modelled data -/

theorem lineBreakData_asc : ascFrom 0 lineBreakData = true := by decide

theorem lineBreakData_end : endOf 0 lineBreakData = 0x10FFFE := by decide

theorem lineBreakData_cls : ∀ r ∈ lineBreakData, r.2.2 < 256 := by decide

theorem values_length : (valuesFrom 0 lineBreakData).length = 0x10FFFE := by
  have h := valuesFrom_length lineBreakData 0 lineBreakData_asc
  rw [lineBreakData_end] at h
  omega

theorem values_lt_256 : ∀ v ∈ valuesFrom 0 lineBreakData, v < 256 :=
  valuesFrom_lt_256 lineBreakData 0 lineBreakData_cls

theorem chunks_length_le : (chunks256 (valuesFrom 0 lineBreakData)).length ≤ 0x1100 := by
  have h := chunks256_get_none 0x1100 (valuesFrom 0 lineBreakData)
    (by rw [values_length]; norm_num)
  exact List.get?_eq_none.mp h

/-- Shift and mask conversions for the paged lookup. -/
theorem shr8_eq_div (cp : Nat) : cp >>> 8 = cp / 256 := by
  rw [Nat.shiftRight_eq_div_pow]

theorem and255_eq_mod (cp : Nat) : cp &&& 0xFF = cp % 256 := by
  have h := Nat.and_pow_two_sub_one_eq_mod cp 8
  norm_num at h
  exact h

/-- The q-th chunk read at position `cp % 256` is the cp-th value. -/
theorem chunk_get_value (V : List Nat) (cp : Nat) (h : cp < V.length) :
    ((V.drop (256 * (cp / 256))).take 256).get? (cp % 256) = V.get? cp := by
  rw [List.get?_take (by omega : cp % 256 < 256), List.get?_drop]
  rw [Nat.div_add_mod]

theorem headD_of_get0 (l : List Nat) (x : Nat) (h : l.get? 0 = some x) : l.headD 0 = x := by
  cases l with
  | nil => simp at h
  | cons a t =>
    rw [List.get?_cons_zero] at h
    simpa using (Option.some.inj h)

/-- Paged lookup over an arbitrary value stream: below the stream length the
lookup returns the stream entry. -/
theorem paged_lookup_core (V : List Nat) (T : List (List Nat) × List Nat)
    (hT : T = buildPages V) (hb : (chunks256 V).length ≤ 0x8000)
    (hV : ∀ v ∈ V, v < 256) (cp : Nat) (h : cp < V.length) :
    lookupTables T.1 T.2 (cp >>> 8) (cp &&& 0xFF) = V.get? cp := by
  subst hT
  rw [shr8_eq_div, and255_eq_mod]
  have hchunk := chunks256_get (cp / 256) V
    (by have := Nat.div_add_mod cp 256; have := Nat.mod_lt cp (by omega : 0 < 256); omega)
  have hv : ∀ v ∈ ((V.drop (256 * (cp / 256))).take 256), v < 256 :=
    fun v hv => hV v (List.mem_of_mem_drop (List.mem_of_mem_take hv))
  have hmain := buildFold_lookup (chunks256 V) [] [] (cp / 256)
    _ hchunk (by simp only [List.length_nil, Nat.zero_add]; omega) hv (cp % 256)
  unfold buildPages
  rw [show ([] : List Nat).length + cp / 256 = cp / 256 by simp] at hmain
  rw [hmain]
  set pg := ((V.drop (256 * (cp / 256))).take 256) with hpg
  have hlen : cp % 256 < pg.length := by
    rw [hpg]
    simp only [List.length_take, List.length_drop]
    have := Nat.div_add_mod cp 256
    have := Nat.mod_lt cp (by omega : 0 < 256)
    omega
  have hget : pg.get? (cp % 256) = V.get? cp := chunk_get_value V cp h
  by_cases hu : pageIsUniform pg
  · rw [if_pos hu]
    obtain ⟨v, hvk⟩ : ∃ v, pg.get? (cp % 256) = some v := by
      rw [List.get?_eq_get hlen]; exact ⟨_, rfl⟩
    have hvmem : v ∈ pg := List.get?_mem hvk
    have hall : ∀ w ∈ pg, w = pg.headD 0 := by
      intro w hw
      exact eq_of_beq (List.all_eq_true.mp hu w hw)
    rw [← hget, hvk, hall v hvmem]
  · rw [if_neg hu]
    unfold padPage
    rw [List.get?_append hlen]
    rw [hget]

/-- Paged lookup over an arbitrary value stream: when every entry of the
chunk holding `cp` equals `x < 256`, the lookup at `cp` (also past the
stream's end, but within the chunk's page) returns `x`. -/
theorem paged_lookup_const_page (V : List Nat) (T : List (List Nat) × List Nat)
    (hT : T = buildPages V) (hb : (chunks256 V).length ≤ 0x8000)
    (q x : Nat) (hx : x < 256) (hq : 256 * q < V.length)
    (hpt : ∀ m, m < ((V.drop (256 * q)).take 256).length →
      ((V.drop (256 * q)).take 256).get? m = some x)
    (cp : Nat) (hcp : cp >>> 8 = q) :
    lookupTables T.1 T.2 (cp >>> 8) (cp &&& 0xFF) = some x := by
  subst hT
  rw [hcp, and255_eq_mod]
  have hchunk := chunks256_get q V hq
  set pg := ((V.drop (256 * q)).take 256) with hpg
  have hlen0 : 0 < pg.length := by
    rw [hpg]
    simp only [List.length_take, List.length_drop]
    omega
  have hall : ∀ w ∈ pg, w = x := by
    intro w hw
    obtain ⟨m, hm⟩ := List.mem_iff_get?.mp hw
    have hmlt : m < pg.length := by
      by_contra hge
      rw [List.get?_eq_none.mpr (by omega)] at hm
      exact Option.noConfusion hm
    rw [hpt m hmlt] at hm
    exact (Option.some.inj hm).symm
  have h0 : pg.headD 0 = x := headD_of_get0 pg x (hpt 0 hlen0)
  have hu : pageIsUniform pg = true := by
    show pg.all (fun v => v == pg.headD 0) = true
    apply List.all_eq_true.mpr
    intro w hw
    rw [hall w hw, h0]
    exact beq_self_eq_true x
  have hv : ∀ v ∈ pg, v < 256 := fun w hw => by rw [hall w hw]; omega
  have hmain := buildFold_lookup (chunks256 V) [] [] q
    _ hchunk (by simp only [List.length_nil, Nat.zero_add]; omega) hv (cp % 256)
  unfold buildPages
  rw [show ([] : List Nat).length + q = q by simp] at hmain
  rw [hmain, if_pos hu, h0]

/-- Paged lookup over an arbitrary value stream: past the pages the row index
is out of bounds, a Rust panic. -/
theorem paged_lookup_row_none (V : List Nat) (T : List (List Nat) × List Nat)
    (hT : T = buildPages V) (cp k : Nat)
    (h : V.length ≤ 256 * (cp >>> 8)) :
    lookupTables T.1 T.2 (cp >>> 8) k = none := by
  subst hT
  apply lookupTables_none
  apply List.get?_eq_none.mpr
  unfold buildPages
  rw [buildFold_snd_length]
  have hnone := chunks256_get_none (cp >>> 8) V h
  have := List.get?_eq_none.mp hnone
  simp only [List.length_nil, Nat.zero_add]
  omega

/-! Concrete instantiations for the modelled data.  Goals mentioning the
paged tables of the concrete data are handled purely by `show` and `exact`:
the tables are too large to normalize. -/

theorem chunks_bound : (chunks256 (valuesFrom 0 lineBreakData)).length ≤ 0x8000 :=
  Nat.le_trans chunks_length_le (by decide)

/-- Central classifier fact: below the covered length, `break_property`
returns exactly the flat value stream entry. -/
theorem break_property_eq_values (cp : Nat) (h : cp < (valuesFrom 0 lineBreakData).length) :
    break_property cp = (valuesFrom 0 lineBreakData).get? cp :=
  paged_lookup_core (valuesFrom 0 lineBreakData) generatedTables rfl
    chunks_bound values_lt_256 cp h

/-- The two code points past the last record but inside the last page resolve
to `XX` through the uniform-page sentinel. -/
theorem break_property_tail (cp : Nat) (h1 : 0x10FFFE ≤ cp) (h2 : cp ≤ 0x10FFFF) :
    break_property cp = some XX := by
  have hresolve : ∀ m, m < 254 → resolve lineBreakData (0x10FF00 + m) = XX := by decide
  have hpt : ∀ m, m < (((valuesFrom 0 lineBreakData).drop (256 * 0x10FF)).take 256).length →
      (((valuesFrom 0 lineBreakData).drop (256 * 0x10FF)).take 256).get? m = some XX := by
    intro m hm
    simp only [List.length_take, List.length_drop, values_length] at hm
    have hm' : m < 254 := by omega
    rw [List.get?_take (by omega : m < 256), List.get?_drop]
    have hg := valuesFrom_get lineBreakData 0 (256 * 0x10FF + m) lineBreakData_asc
      (by omega) (by rw [lineBreakData_end]; omega)
    rw [show 256 * 0x10FF + m - 0 = 256 * 0x10FF + m by omega] at hg
    rw [hg, show (256 * 0x10FF + m) = (0x10FF00 + m) by norm_num, hresolve m hm']
  exact paged_lookup_const_page (valuesFrom 0 lineBreakData) generatedTables rfl
    chunks_bound 0x10FF XX (by decide) (by rw [values_length]; norm_num) hpt cp
    (by rw [shr8_eq_div]; omega)

/-- Above the last page the row index is out of bounds: a Rust panic. -/
theorem break_property_none (cp : Nat) (h : 0x110000 ≤ cp) : break_property cp = none :=
  paged_lookup_row_none (valuesFrom 0 lineBreakData) generatedTables rfl cp (cp &&& 0xFF)
    (by rw [values_length, shr8_eq_div]; omega)

end UnicodeLinebreak

namespace UnicodeLinebreak

/-! ### Finite facts about the pair table (via the literal `pairTableData`) -/

/-- In-bounds lookups on the literal table succeed and give `cellOf`. -/
theorem cell_lookup : ∀ r, r < 53 → ∀ c, c < 44 →
    (pairTableData.get? r).bind (fun row => row.get? c)
      = some (cellOf pairTableData r c) := by decide

/-- Every masked next state is a valid row and is never the start-of-text
row 44. -/
theorem next_state_lt : ∀ r, r < 53 → ∀ c, c < 44 →
    cellOf pairTableData r c &&& STATE_MASK < 53 ∧
    cellOf pairTableData r c &&& STATE_MASK ≠ 44 := by decide

/-- The start-of-text row carries no break bits. -/
theorem sot_row_no_break : ∀ c, c < 44 →
    cellOf pairTableData 44 c &&& ALLOWED_BREAK_BIT = 0 := by decide

/-- In every row except start-of-text, the end-of-text column has both break
bits set. -/
theorem eot_col_mandatory : ∀ r, r < 53 → r ≠ 44 →
    cellOf pairTableData r 43 &&& MANDATORY_BREAK_BIT ≠ 0 ∧
    cellOf pairTableData r 43 &&& ALLOWED_BREAK_BIT ≠ 0 := by decide

/-- Consuming a carriage return always moves to row `CR`. -/
theorem cr_col_state : ∀ r, r < 53 →
    cellOf pairTableData r 1 &&& STATE_MASK = 1 := by decide

/-- The cell for a line feed after a carriage return allows no break. -/
theorem crlf_cell : cellOf pairTableData 1 2 &&& ALLOWED_BREAK_BIT = 0 := by decide

/-- A mandatory bit never occurs without the allowed bit. -/
theorem mand_imp_allowed : ∀ r, r < 53 → ∀ c, c < 44 →
    cellOf pairTableData r c &&& MANDATORY_BREAK_BIT ≠ 0 →
    cellOf pairTableData r c &&& ALLOWED_BREAK_BIT ≠ 0 := by decide

/-! ### Total classifier bounds -/

theorem defaultClass_cases (c : Nat) :
    defaultClass c = ID ∨ defaultClass c = PR ∨ defaultClass c = XX := by
  unfold defaultClass default_value
  split
  · left; rfl
  · split
    · left; rfl
    · split
      · left; rfl
      · split
        · right; left; rfl
        · right; right; rfl

theorem resolve_lt (rs : List (Nat × Nat × Nat)) (hcls : ∀ r ∈ rs, r.2.2 < 43) :
    ∀ c, resolve rs c < 43 := by
  induction rs with
  | nil =>
    intro c
    show defaultClass c < 43
    rcases defaultClass_cases c with h | h | h <;> rw [h] <;> decide
  | cons r rest ih =>
    obtain ⟨start, stop, lb⟩ := r
    intro c
    show (if c < start then defaultClass c else if c ≤ stop then lb else resolve rest c) < 43
    split
    · rcases defaultClass_cases c with h | h | h <;> rw [h] <;> decide
    · split
      · exact hcls (start, stop, lb) (List.mem_cons_self _ _)
      · exact ih (fun r hr => hcls r (List.mem_cons_of_mem _ hr)) c

theorem classOf_lt (cp : Nat) : classOf cp < 43 := by
  unfold classOf
  split
  · exact resolve_lt lineBreakData (by decide) cp
  · decide

/-- `break_property` agrees with the total classifier on all code points. -/
theorem break_property_classOf (cp : Nat) (h : cp ≤ 0x10FFFF) :
    break_property cp = some (classOf cp) := by
  by_cases hlt : cp < 0x10FFFE
  · have h1 := break_property_eq_values cp (by rw [values_length]; omega)
    have h2 := valuesFrom_get lineBreakData 0 cp lineBreakData_asc (by omega)
      (by rw [lineBreakData_end]; omega)
    rw [show cp - 0 = cp by omega] at h2
    rw [h1, h2]
    unfold classOf
    rw [if_pos hlt]
  · rw [break_property_tail cp (by omega) h]
    unfold classOf
    rw [if_neg hlt]

/-- Every Lean `Char` is a Unicode scalar value, in particular at most
`0x10FFFF`. -/
theorem char_toNat_le (c : Char) : c.toNat ≤ 0x10FFFF := by
  show c.val.toNat ≤ 0x10FFFF
  have h := c.valid
  rcases h with h | ⟨_, h⟩
  · have := Nat.lt_of_lt_of_le h (by norm_num : 0xD800 ≤ 0x110000)
    omega
  · omega

end UnicodeLinebreak

namespace UnicodeLinebreak

/-! ### Bridging `linebreaks` with its total version over the literal table -/

/-- Classification step of `linebreaks` never fails and produces the total
classification. -/
theorem classify_eq (s : List Char) : ∀ i,
    ((charIndices i s).mapM (fun p =>
        (break_property p.2.toNat).map (fun cls => (p.1, cls))))
      = some ((charIndices i s).map (fun p => (p.1, classOf p.2.toNat))) := by
  induction s with
  | nil => intro i; rfl
  | cons c cs ih =>
    intro i
    show ((charIndices i (c :: cs)).mapM (fun p =>
        (break_property p.2.toNat).map (fun cls => (p.1, cls)))) = _
    rw [show charIndices i (c :: cs) = (i, c) :: charIndices (i + c.utf8Size) cs from rfl]
    rw [List.mapM_cons]
    rw [break_property_classOf c.toNat (char_toNat_le c)]
    rw [ih (i + c.utf8Size)]
    rfl

/-- The scan over the literal table never fails when the state row is valid
and every class is a valid column. -/
theorem scanOpt_eq (ps : List (Nat × Nat)) : ∀ st : Nat × Bool, st.1 < 53 →
    (∀ p ∈ ps, p.2 < 44) →
    scanOptW pairTableData st ps = some (scanTW pairTableData st ps) := by
  induction ps with
  | nil => intro st _ _; rfl
  | cons p rest ih =>
    obtain ⟨i, cls⟩ := p
    intro st hst hcls
    have hc : cls < 44 := hcls (i, cls) (List.mem_cons_self _ _)
    show (match (pairTableData.get? st.1).bind (fun row => row.get? cls) with
      | none => none
      | some val =>
        let is_mandatory := val &&& MANDATORY_BREAK_BIT != 0
        let is_break := (val &&& ALLOWED_BREAK_BIT != 0) && (!st.2 || is_mandatory)
        (scanOptW pairTableData (val &&& STATE_MASK, cls == ZWJ) rest).map
          (fun out => (i, is_break, is_mandatory) :: out)) = _
    rw [cell_lookup st.1 hst cls hc]
    show (scanOptW pairTableData (cellOf pairTableData st.1 cls &&& STATE_MASK, cls == ZWJ)
        rest).map
      (fun out => (i,
        (cellOf pairTableData st.1 cls &&& ALLOWED_BREAK_BIT != 0) &&
          (!st.2 || (cellOf pairTableData st.1 cls &&& MANDATORY_BREAK_BIT != 0)),
        cellOf pairTableData st.1 cls &&& MANDATORY_BREAK_BIT != 0) :: out)
      = some (scanTW pairTableData st ((i, cls) :: rest))
    rw [ih (cellOf pairTableData st.1 cls &&& STATE_MASK, cls == ZWJ)
      (next_state_lt st.1 hst cls hc).1
      (fun q hq => hcls q (List.mem_cons_of_mem _ hq))]
    rfl

/-- Every element fed to the scan has a valid class column. -/
theorem seqT_cls_lt (s : List Char) : ∀ p ∈ seqT s, p.2 < 44 := by
  intro p hp
  unfold seqT classifyT at hp
  rcases List.mem_append.mp hp with h | h
  · obtain ⟨q, _, hq⟩ := List.mem_map.mp h
    rw [← hq]
    exact Nat.lt_trans (classOf_lt q.2.toNat) (by decide)
  · rw [List.mem_singleton.mp h]
    show EOT < 44
    decide

end UnicodeLinebreak

namespace UnicodeLinebreak

/-- Central bridging fact: `linebreaks` never fails and computes the total
version over the literal table. -/
theorem linebreaks_eq (s : List Char) :
    linebreaks s = some (linebreaksTW pairTableData s) := by
  show ((charIndices 0 s).mapM (fun p =>
      (break_property p.2.toNat).map (fun cls => (p.1, cls)))).bind
    (fun classified =>
      (scanOptW PAIR_TABLE (SOT, false) (classified ++ [(utf8Len s, EOT)])).map
        (fun triples =>
          (triples.filter (fun t => t.2.1)).map (fun t =>
            (t.1, if t.2.2 then BreakOpportunity.Mandatory else BreakOpportunity.Allowed))))
    = some (linebreaksTW pairTableData s)
  rw [classify_eq s 0]
  rw [Option.some_bind]
  rw [show scanOptW PAIR_TABLE = scanOptW pairTableData from congrArg scanOptW pairTable_eq]
  rw [show (charIndices 0 s).map (fun p => (p.1, classOf p.2.toNat)) ++ [(utf8Len s, EOT)]
    = seqT s from rfl]
  rw [scanOpt_eq (seqT s) (SOT, false) (by show sot < 53; decide) (seqT_cls_lt s)]
  rfl

/-- `linebreaks` cannot fail. -/
theorem linebreaks_isSome (s : List Char) : (linebreaks s).isSome = true := by
  rw [linebreaks_eq s]
  rfl

/-! ### Structure of the total scan -/

theorem scanTW_cons (tbl : Table) (st : Nat × Bool) (i cls : Nat) (rest : List (Nat × Nat)) :
    scanTW tbl st ((i, cls) :: rest)
      = (i, (cellOf tbl st.1 cls &&& ALLOWED_BREAK_BIT != 0) &&
          (!st.2 || (cellOf tbl st.1 cls &&& MANDATORY_BREAK_BIT != 0)),
          cellOf tbl st.1 cls &&& MANDATORY_BREAK_BIT != 0)
        :: scanTW tbl (nextSt tbl st (i, cls)) rest := rfl

theorem scanTW_append (tbl : Table) (ys : List (Nat × Nat)) :
    ∀ (xs : List (Nat × Nat)) (st : Nat × Bool),
    scanTW tbl st (xs ++ ys) = scanTW tbl st xs ++ scanTW tbl (scanState tbl st xs) ys := by
  intro xs
  induction xs with
  | nil => intro st; rfl
  | cons p rest ih =>
    obtain ⟨i, cls⟩ := p
    intro st
    rw [List.cons_append, scanTW_cons, scanTW_cons, ih (nextSt tbl st (i, cls)),
      List.cons_append]
    rfl

theorem scanTW_offsets (tbl : Table) : ∀ (ps : List (Nat × Nat)) (st : Nat × Bool),
    (scanTW tbl st ps).map (fun t => t.1) = ps.map (fun p => p.1) := by
  intro ps
  induction ps with
  | nil => intro st; rfl
  | cons p rest ih =>
    obtain ⟨i, cls⟩ := p
    intro st
    rw [scanTW_cons]
    show i :: (scanTW tbl _ rest).map (fun t => t.1) = i :: rest.map (fun p => p.1)
    rw [ih]

/-- The scan state row stays a valid non-`sot` row. -/
theorem scanState_lt (ps : List (Nat × Nat)) : ∀ st : Nat × Bool, st.1 < 53 →
    (∀ p ∈ ps, p.2 < 44) →
    (scanState pairTableData st ps).1 < 53 ∧
    (ps ≠ [] → (scanState pairTableData st ps).1 ≠ 44) := by
  induction ps with
  | nil =>
    intro st hst _
    exact ⟨hst, fun h => absurd rfl h⟩
  | cons p rest ih =>
    obtain ⟨i, cls⟩ := p
    intro st hst hcls
    have hc : cls < 44 := hcls (i, cls) (List.mem_cons_self _ _)
    have hnext := next_state_lt st.1 hst cls hc
    have hrec := ih (nextSt pairTableData st (i, cls)) hnext.1
      (fun q hq => hcls q (List.mem_cons_of_mem _ hq))
    refine ⟨hrec.1, fun _ => ?_⟩
    cases rest with
    | nil => exact hnext.2
    | cons q qs => exact hrec.2 (by simp)

/-! ### Offsets of the classified sequence -/

theorem charIndices_mem_bounds (s : List Char) : ∀ i, ∀ p ∈ charIndices i s,
    i ≤ p.1 ∧ p.1 < i + utf8Len s := by
  induction s with
  | nil => intro i p hp; simp [charIndices] at hp
  | cons c cs ih =>
    intro i p hp
    have hpos := Char.utf8Size_pos c
    rcases hp with _ | hp
    · constructor
      · exact Nat.le_refl i
      · show i < i + utf8Len (c :: cs)
        show i < i + (c.utf8Size + utf8Len cs)
        omega
    · have := ih (i + c.utf8Size) p (by assumption)
      constructor
      · omega
      · show p.1 < i + (c.utf8Size + utf8Len cs)
        omega

theorem charIndices_pairwise (s : List Char) : ∀ i,
    (charIndices i s).Pairwise (fun a b => a.1 < b.1) := by
  induction s with
  | nil => intro i; exact List.Pairwise.nil
  | cons c cs ih =>
    intro i
    refine List.Pairwise.cons ?_ (ih (i + c.utf8Size))
    intro p hp
    have := charIndices_mem_bounds cs (i + c.utf8Size) p hp
    have hpos := Char.utf8Size_pos c
    show i < p.1
    omega

theorem seqT_pairwise (s : List Char) : (seqT s).Pairwise (fun a b => a.1 < b.1) := by
  unfold seqT classifyT
  apply List.pairwise_append.mpr
  refine ⟨?_, ?_, ?_⟩
  · apply List.pairwise_map.mpr
    exact charIndices_pairwise s 0
  · exact List.pairwise_singleton _ _
  · intro a ha b hb
    obtain ⟨q, hq, hqa⟩ := List.mem_map.mp ha
    have hbnd := charIndices_mem_bounds s 0 q hq
    rw [List.mem_singleton.mp hb, ← hqa]
    show q.1 < utf8Len s
    omega

end UnicodeLinebreak

namespace UnicodeLinebreak

/-! ### Supporting lemmas for the scan-shape claims -/

theorem classifyT_ne_nil (s : List Char) (h : s ≠ []) : classifyT s ≠ [] := by
  cases s with
  | nil => exact absurd rfl h
  | cons c cs => simp [classifyT, charIndices]

theorem classifyT_cls_lt (s : List Char) : ∀ p ∈ classifyT s, p.2 < 44 :=
  fun p hp => seqT_cls_lt s p (List.mem_append_left _ hp)

/-- For a non-empty input the scan output ends with the always-emitted
end-of-text element `(utf8Len s, true, true)`. -/
theorem scanTW_last (s : List Char) (h : s ≠ []) :
    ∃ pre, scanTW pairTableData (SOT, false) (seqT s)
      = pre ++ [(utf8Len s, true, true)] := by
  have happ := scanTW_append pairTableData [(utf8Len s, EOT)] (classifyT s) (SOT, false)
  have hst := scanState_lt (classifyT s) (SOT, false) (by show sot < 53; decide)
    (classifyT_cls_lt s)
  have hrow := hst.1
  have hnsot := hst.2 (classifyT_ne_nil s h)
  have hcell := eot_col_mandatory (scanState pairTableData (SOT, false) (classifyT s)).1
    hrow hnsot
  refine ⟨scanTW pairTableData (SOT, false) (classifyT s), ?_⟩
  show scanTW pairTableData (SOT, false) (classifyT s ++ [(utf8Len s, EOT)]) = _
  rw [happ]
  congr 1
  rw [scanTW_cons]
  have hm : (cellOf pairTableData
      (scanState pairTableData (SOT, false) (classifyT s)).1 EOT &&& MANDATORY_BREAK_BIT != 0)
      = true := by
    rw [bne_iff_ne]
    exact hcell.1
  have ha : (cellOf pairTableData
      (scanState pairTableData (SOT, false) (classifyT s)).1 EOT &&& ALLOWED_BREAK_BIT != 0)
      = true := by
    rw [bne_iff_ne]
    exact hcell.2
  show [((utf8Len s), _, _)] = [(utf8Len s, true, true)]
  rw [hm, ha]
  simp

/-- Break positions of the emitted list are break positions of the scan. -/
theorem mem_linebreaksTW (tbl : Table) (s : List Char) (o : Nat) (k : BreakOpportunity) :
    (o, k) ∈ linebreaksTW tbl s ↔
      ∃ m, (o, true, m) ∈ scanTW tbl (SOT, false) (seqT s) ∧
        k = (if m then BreakOpportunity.Mandatory else BreakOpportunity.Allowed) := by
  unfold linebreaksTW
  constructor
  · intro hm
    obtain ⟨t, ht, hteq⟩ := List.mem_map.mp hm
    have htf := List.mem_filter.mp ht
    obtain ⟨i, b, m⟩ := t
    injection hteq with h1 h2
    simp only at htf h1
    refine ⟨m, ?_, h2.symm⟩
    have hb : b = true := htf.2
    rw [← h1, ← hb]
    exact htf.1
  · intro ⟨m, hmem, hk⟩
    apply List.mem_map.mpr
    refine ⟨(o, true, m), List.mem_filter.mpr ⟨hmem, rfl⟩, ?_⟩
    rw [hk]

end UnicodeLinebreak

namespace UnicodeLinebreak

/-! ### Claim C9: empty input -/

/-- Claim C9: `linebreaks` applied to the empty string yields an empty
sequence — not even the end-of-text mandatory break is emitted, because the
start-of-text row carries no break bits. -/
theorem claim_C9_empty_input : linebreaks ([] : List Char) = some [] := by
  rw [linebreaks_eq]
  decide

/-! ### Claim C3: trailing mandatory break -/

/-- Claim C3: for every non-empty input, `linebreaks` yields at least one
opportunity, and the last one is exactly `(byte length, Mandatory)`. -/
theorem claim_C3_trailing_mandatory (s : List Char) (h : s ≠ []) :
    ∃ l, linebreaks s = some l ∧ l ≠ [] ∧
      l.getLast? = some (utf8Len s, BreakOpportunity.Mandatory) := by
  refine ⟨linebreaksTW pairTableData s, linebreaks_eq s, ?_⟩
  obtain ⟨pre, hpre⟩ := scanTW_last s h
  unfold linebreaksTW
  rw [hpre, List.filter_append, List.map_append]
  rw [show List.filter (fun t => t.2.1) [(utf8Len s, true, true)]
    = [(utf8Len s, true, true)] from rfl]
  rw [show List.map (fun t => (t.1,
      if t.2.2 then BreakOpportunity.Mandatory else BreakOpportunity.Allowed))
      [(utf8Len s, true, true)] = [(utf8Len s, BreakOpportunity.Mandatory)] from rfl]
  constructor
  · simp
  · rw [List.getLast?_concat]

/-! ### Claim C7: monotone offsets, none at zero -/

theorem seqT_offsets_pos (s : List Char) (hs : s ≠ []) :
    ∀ p ∈ (seqT s).tail, 0 < p.1 := by
  cases s with
  | nil => exact absurd rfl hs
  | cons c cs =>
    intro p hp
    have hpos := Char.utf8Size_pos c
    have : (seqT (c :: cs)).tail
        = (charIndices (0 + c.utf8Size) cs).map (fun p => (p.1, classOf p.2.toNat))
          ++ [(utf8Len (c :: cs), EOT)] := rfl
    rw [this] at hp
    rcases List.mem_append.mp hp with h | h
    · obtain ⟨q, hq, hqe⟩ := List.mem_map.mp h
      have := charIndices_mem_bounds cs (0 + c.utf8Size) q hq
      rw [← hqe]
      show 0 < q.1
      omega
    · rw [List.mem_singleton.mp h]
      show 0 < utf8Len (c :: cs)
      show 0 < c.utf8Size + utf8Len cs
      omega

/-- Claim C7: the emitted offsets are strictly increasing, and no
opportunity is ever emitted at offset 0. -/
theorem claim_C7_monotone_offsets (s : List Char) :
    ∃ l, linebreaks s = some l ∧ l.Pairwise (fun a b => a.1 < b.1) ∧
      ∀ k, (0, k) ∉ l := by
  refine ⟨linebreaksTW pairTableData s, linebreaks_eq s, ?_, ?_⟩
  · -- offsets of the scan output are the offsets of the input sequence
    have hscan : (scanTW pairTableData (SOT, false) (seqT s)).Pairwise
        (fun a b => a.1 < b.1) := by
      apply List.pairwise_map.mp
      rw [scanTW_offsets]
      exact List.pairwise_map.mpr (seqT_pairwise s)
    have hfilter : ((scanTW pairTableData (SOT, false) (seqT s)).filter
        (fun t => t.2.1)).Pairwise (fun a b => a.1 < b.1) :=
      List.Pairwise.sublist (List.filter_sublist _) hscan
    unfold linebreaksTW
    apply List.pairwise_map.mpr
    exact hfilter
  · intro k hk
    cases hs : s with
    | nil =>
      subst hs
      have h9 : linebreaksTW pairTableData ([] : List Char)
          = ([] : List (Nat × BreakOpportunity)) := by decide
      rw [h9] at hk
      exact List.not_mem_nil _ hk
    | cons c cs =>
      subst hs
      obtain ⟨m, hmem, _⟩ := (mem_linebreaksTW pairTableData (c :: cs) 0 k).mp hk
      -- the scan output splits as head (with the sot row, no break) and tail
      have hseq : seqT (c :: cs)
          = (0, classOf c.toNat) :: (seqT (c :: cs)).tail := rfl
      rw [hseq, scanTW_cons] at hmem
      have hcls : classOf c.toNat < 44 :=
        Nat.lt_trans (classOf_lt c.toNat) (by decide)
      rcases List.mem_cons.mp hmem with heq | hmem'
      · -- impossible: the head triple has is_break = false
        have hb : cellOf pairTableData 44 (classOf c.toNat) &&& ALLOWED_BREAK_BIT = 0 :=
          sot_row_no_break (classOf c.toNat) hcls
        have h21 := congrArg (fun t : Nat × Bool × Bool => t.2.1) heq
        simp only at h21
        rw [show SOT = 44 from rfl] at h21
        rw [show (cellOf pairTableData 44 (classOf c.toNat) &&& ALLOWED_BREAK_BIT != 0) = false
          from by rw [bne_eq_false_iff_eq]; exact hb] at h21
        simp at h21
      · -- impossible: every later offset is positive
        have hoff : (0 : Nat) ∈ ((seqT (c :: cs)).tail).map (fun p => p.1) := by
          have := scanTW_offsets pairTableData ((seqT (c :: cs)).tail)
            (nextSt pairTableData (SOT, false) (0, classOf c.toNat))
          have hmm : ((0 : Nat), true, m).1 ∈ (scanTW pairTableData
              (nextSt pairTableData (SOT, false) (0, classOf c.toNat))
              ((seqT (c :: cs)).tail)).map (fun t => t.1) :=
            List.mem_map_of_mem _ (by exact hmem')
          rw [this] at hmm
          exact hmm
        obtain ⟨q, hq, hqe⟩ := List.mem_map.mp hoff
        have := seqT_offsets_pos (c :: cs) (by simp) q hq
        omega

end UnicodeLinebreak

namespace UnicodeLinebreak

/-! ### Claim C4: the scan is total and in bounds -/

/-- Claim C4: `linebreaks` cannot fail on any decoded input: the pair table
is a full 53×44 matrix, every masked next-state index is a valid row, every
class fed to the scan is a valid column, and the whole pipeline returns
`some` on every input. -/
theorem claim_C4_scan_total :
    (PAIR_TABLE.length = 53 ∧ ∀ row ∈ PAIR_TABLE, row.length = 44) ∧
    (∀ r c, r < 53 → c < 44 → cellOf PAIR_TABLE r c &&& STATE_MASK < 53) ∧
    (∀ s : List Char, (∀ p ∈ seqT s, p.2 < 44) ∧ (linebreaks s).isSome = true) := by
  refine ⟨?_, ?_, ?_⟩
  · rw [pairTable_eq]
    exact ⟨by decide, by decide⟩
  · intro r c hr hc
    rw [pairTable_eq]
    exact (next_state_lt r hr c hc).1
  · intro s
    exact ⟨seqT_cls_lt s, linebreaks_isSome s⟩

theorem claim_C4_scan_total_witness :
    cellOf PAIR_TABLE 44 29 &&& STATE_MASK < 53 ∧ (linebreaks ['a']).isSome = true :=
  ⟨claim_C4_scan_total.2.1 44 29 (by decide) (by decide),
    (claim_C4_scan_total.2.2 ['a']).2⟩

/-! ### Claim C1: order of rule application -/

theorem applyRules_reverse (l : List Rule) : ∀ t, applyRules l t = l.reverse.foldl applyRule t := by
  induction l with
  | nil => intro t; rfl
  | cons r rest ih =>
    intro t
    show applyRule (applyRules rest t) r = _
    rw [ih t, List.reverse_cons, List.foldl_append]
    rfl

/-- Claim C1 counterexample: the cell (SP, SP) is touched by both LB7
(`SP ÷ SP`, declared earlier) and LB18 (`SP ÷ ALL`, declared later).  The
generated `PAIR_TABLE` holds the earlier rule's value 9 (direct break
forbidden), while a genuine declaration-order fold would hold the later
rule's value 137 (break allowed): first-declared wins, not last. -/
theorem claim_C1_counterexample :
    cellOf PAIR_TABLE SP SP = 9 ∧
    cellOf declaredOrderTable SP SP = 137 ∧
    PAIR_TABLE ≠ declaredOrderTable := by
  refine ⟨by rw [pairTable_eq]; decide, by decide, ?_⟩
  intro heq
  have h1 : cellOf PAIR_TABLE SP SP = 9 := by rw [pairTable_eq]; decide
  have h2 : cellOf declaredOrderTable SP SP = 137 := by decide
  rw [heq] at h1
  rw [h1] at h2
  exact absurd h2 (by decide)

/-- Claim C1 (amended): the macro recursion of `rules2pair_table!` emits the
mutation loops of the REMAINING rules before the current rule's own loop, so
the generated `PAIR_TABLE` equals a fold of the rule list in REVERSE declared
order: on overlapping cells the earlier-declared rule wins. -/
theorem claim_C1_reverse_order :
    PAIR_TABLE = RULES.reverse.foldl applyRule initialPairTable :=
  applyRules_reverse RULES initialPairTable

end UnicodeLinebreak

namespace UnicodeLinebreak

/-! ### Claim C2: totality of the classifier -/

/-- Claim C2 counterexample: `break_property` indexes `PAGE_INDICES` with
`codepoint >> 8` unchecked, and the generated table only has 0x1100 pages,
so any code point at or above 0x110000 — which a `u32` argument permits —
panics (modelled as `none`).  The classifier is not total over `u32`. -/
theorem claim_C2_counterexample :
    break_property 0x110000 = none ∧ break_property 0xFFFFFFFF = none :=
  ⟨break_property_none 0x110000 (by decide), break_property_none 0xFFFFFFFF (by decide)⟩

/-- Claim C2 (amended): `break_property` is total on the Unicode code space
0..=0x10FFFF — there it always returns a defined class code below 43 — but
not on all of `u32`. -/
theorem claim_C2_classifier_total (cp : Nat) (h : cp ≤ 0x10FFFF) :
    ∃ cls, break_property cp = some cls ∧ cls < 43 :=
  ⟨classOf cp, break_property_classOf cp h, classOf_lt cp⟩

theorem claim_C2_classifier_total_witness :
    ∃ cls, break_property 0x10FFFF = some cls ∧ cls < 43 :=
  claim_C2_classifier_total 0x10FFFF (by decide)

end UnicodeLinebreak

namespace UnicodeLinebreak

/-! ### Claim C8: default classes for uncovered code points -/

theorem resolve_uncovered (rs : List (Nat × Nat × Nat)) :
    ∀ c, (∀ r ∈ rs, ¬(r.1 ≤ c ∧ c ≤ r.2.1)) → resolve rs c = defaultClass c := by
  induction rs with
  | nil => intro c _; rfl
  | cons r rest ih =>
    obtain ⟨start, stop, lb⟩ := r
    intro c hunc
    have hhead := hunc (start, stop, lb) (List.mem_cons_self _ _)
    show (if c < start then defaultClass c else if c ≤ stop then lb else resolve rest c)
      = defaultClass c
    by_cases hs : c < start
    · rw [if_pos hs]
    · rw [if_neg hs]
      have hstop : ¬c ≤ stop := fun hle => hhead ⟨Nat.le_of_not_lt hs, hle⟩
      rw [if_neg hstop]
      exact ih c (fun r hr => hunc r (List.mem_cons_of_mem _ hr))

/-- Claim C8: a code point of the Unicode code space covered by no record of
the build data resolves through `default_value`: the CJK-ideograph blocks,
Planes 2 and 3, and the Plane-1 block 0x1F000–0x1FFFD give Ideographic, the
currency block 0x20A0–0x20CF gives Prefix, everything else Unknown. -/
theorem claim_C8_default_rules :
    (∀ cp, cp ≤ 0x10FFFF → (∀ r ∈ lineBreakData, ¬(r.1 ≤ cp ∧ cp ≤ r.2.1)) →
      break_property cp = lb_class_by_key (default_value cp)) ∧
    (∀ cp, default_value cp =
      if (0x3400 ≤ cp ∧ cp ≤ 0x4DBF) ∨ (0x4E00 ≤ cp ∧ cp ≤ 0x9FFF)
          ∨ (0xF900 ≤ cp ∧ cp ≤ 0xFAFF) ∨ (0x20000 ≤ cp ∧ cp ≤ 0x2FFFD)
          ∨ (0x30000 ≤ cp ∧ cp ≤ 0x3FFFD) ∨ (0x1F000 ≤ cp ∧ cp ≤ 0x1FFFD) then "ID"
      else if 0x20A0 ≤ cp ∧ cp ≤ 0x20CF then "PR"
      else "XX") := by
  constructor
  · intro cp h hunc
    rw [break_property_classOf cp h, lb_class_by_key_default cp]
    congr 1
    unfold classOf
    by_cases hlt : cp < 0x10FFFE
    · rw [if_pos hlt]
      exact resolve_uncovered lineBreakData cp hunc
    · rw [if_neg hlt]
      have hc : cp = 0x10FFFE ∨ cp = 0x10FFFF := by omega
      rcases hc with h' | h' <;> subst h' <;> decide
  · intro cp
    unfold default_value
    split_ifs <;> first | rfl | omega

theorem claim_C8_default_rules_witness :
    break_property 0x30000 = lb_class_by_key (default_value 0x30000) ∧
    lb_class_by_key (default_value 0x30000) = some ID ∧
    break_property 0x20A5 = lb_class_by_key (default_value 0x20A5) ∧
    lb_class_by_key (default_value 0x20A5) = some PR :=
  ⟨claim_C8_default_rules.1 0x30000 (by decide) (by decide), by decide,
    claim_C8_default_rules.1 0x20A5 (by decide) (by decide), by decide⟩

end UnicodeLinebreak

namespace UnicodeLinebreak

/-! ### Claim C5: safe pairs -/


/-- Folding `tryStep` from a recorded transition `x` succeeds exactly when
every remaining transition equals `x`. -/
theorem tryFold_some (t : Table) (j : Nat) : ∀ (l : List Nat) (x : Nat),
    List.foldlM (tryStep t j) (some x) l ≠ none ↔ ∀ s ∈ l, cellOf t s j = x := by
  intro l
  induction l with
  | nil =>
    intro x
    constructor
    · intro _ s hs
      exact absurd hs (List.not_mem_nil s)
    · intro _ h
      exact Option.noConfusion h
  | cons s rest ih =>
    intro x
    by_cases h : cellOf t s j = x
    · have hbne : (cellOf t s j != x) = false := bne_eq_false_iff_eq.mpr h
      have hstep : tryStep t j (some x) s = some (some (cellOf t s j)) := by
        unfold tryStep
        rw [show Option.filter (fun prev => cellOf t s j != prev) (some x) = none from by
          show (if (cellOf t s j != x) = true then some x else none) = none
          rw [hbne]
          rfl]
      rw [show List.foldlM (tryStep t j) (some x) (s :: rest)
          = List.foldlM (tryStep t j) (some (cellOf t s j)) rest from by
        show tryStep t j (some x) s >>= (fun acc => List.foldlM (tryStep t j) acc rest) = _
        rw [hstep]
        rfl]
      rw [h]
      constructor
      · intro hne s2 hs2
        rcases List.mem_cons.mp hs2 with he | hm
        · rw [he]
          exact h
        · exact (ih x).mp hne s2 hm
      · intro hall
        exact (ih x).mpr (fun s2 hs2 => hall s2 (List.mem_cons_of_mem _ hs2))
    · have hbne : (cellOf t s j != x) = true := bne_iff_ne.mpr h
      have hstep : tryStep t j (some x) s = none := by
        unfold tryStep
        rw [show Option.filter (fun prev => cellOf t s j != prev) (some x) = some x from by
          show (if (cellOf t s j != x) = true then some x else none) = some x
          rw [hbne]
          rfl]
      rw [show List.foldlM (tryStep t j) (some x) (s :: rest) = none from by
        show tryStep t j (some x) s >>= (fun acc => List.foldlM (tryStep t j) acc rest) = _
        rw [hstep]
        rfl]
      constructor
      · intro hne
        exact absurd rfl hne
      · intro hall
        exact absurd (hall s (List.mem_cons_self _ _)) h

/-- The full `try_fold` over the possible states succeeds exactly when all
observed transitions agree pairwise. -/
theorem tryFold_start (t : Table) (j : Nat) (l : List Nat) :
    List.foldlM (tryStep t j) none l ≠ none ↔
      ∀ s ∈ l, ∀ s2 ∈ l, cellOf t s j = cellOf t s2 j := by
  cases l with
  | nil =>
    constructor
    · intro _ s hs
      exact absurd hs (List.not_mem_nil s)
    · intro _ h
      exact Option.noConfusion h
  | cons s rest =>
    have hstep : tryStep t j none s = some (some (cellOf t s j)) := rfl
    rw [show List.foldlM (tryStep t j) none (s :: rest)
        = List.foldlM (tryStep t j) (some (cellOf t s j)) rest from by
      show tryStep t j none s >>= (fun acc => List.foldlM (tryStep t j) acc rest) = _
      rw [hstep]
      rfl]
    constructor
    · intro hne a ha b hb
      have hall := (tryFold_some t j rest (cellOf t s j)).mp hne
      have hva : cellOf t a j = cellOf t s j := by
        rcases List.mem_cons.mp ha with he | hm
        · rw [he]
        · exact hall a hm
      have hvb : cellOf t b j = cellOf t s j := by
        rcases List.mem_cons.mp hb with he | hm
        · rw [he]
        · exact hall b hm
      rw [hva, hvb]
    · intro hpair
      apply (tryFold_some t j rest (cellOf t s j)).mpr
      intro s2 hs2
      exact hpair s2 (List.mem_cons_of_mem _ hs2) s (List.mem_cons_self _ _)

/-- Membership in the derived unsafe-pair list: exactly the class pairs whose
final transition depends on the predecessor state. -/
theorem mem_unsafePairsOf (t : Table) (a b : Nat) :
    (a, b) ∈ unsafePairsOf t ↔
      a < NUM_CLASSES ∧ b < NUM_CLASSES ∧
      ¬ ∀ s ∈ t.map (fun row => row.getD a 0 &&& STATE_MASK),
          ∀ s2 ∈ t.map (fun row => row.getD a 0 &&& STATE_MASK),
          cellOf t s b = cellOf t s2 b := by
  unfold unsafePairsOf
  rw [List.mem_flatMap]
  constructor
  · rintro ⟨j, hj, hmem⟩
    rw [List.mem_filterMap] at hmem
    obtain ⟨i, hi, harm⟩ := hmem
    have harm2 : (match List.foldlM (tryStep t j) none
          (t.map (fun row => row.getD i 0 &&& STATE_MASK)) with
        | some _ => none
        | none => some (i, j)) = some (a, b) := harm
    cases hfold : List.foldlM (tryStep t j) none
        (t.map (fun row => row.getD i 0 &&& STATE_MASK)) with
    | some y =>
      rw [hfold] at harm2
      exact Option.noConfusion harm2
    | none =>
      rw [hfold] at harm2
      injection harm2 with hpair
      injection hpair with hia hjb
      subst hia
      subst hjb
      refine ⟨List.mem_range.mp hi, List.mem_range.mp hj, ?_⟩
      intro hall
      exact (tryFold_start t j (t.map (fun row => row.getD i 0 &&& STATE_MASK))).mpr hall hfold
  · rintro ⟨ha, hb, hnall⟩
    refine ⟨b, List.mem_range.mpr hb, ?_⟩
    rw [List.mem_filterMap]
    refine ⟨a, List.mem_range.mpr ha, ?_⟩
    show (match List.foldlM (tryStep t b) none
        (t.map (fun row => row.getD a 0 &&& STATE_MASK)) with
      | some _ => none
      | none => some (a, b)) = some (a, b)
    cases hfold : List.foldlM (tryStep t b) none
        (t.map (fun row => row.getD a 0 &&& STATE_MASK)) with
    | some y =>
      exfalso
      apply hnall
      apply (tryFold_start t b (t.map (fun row => row.getD a 0 &&& STATE_MASK))).mp
      rw [hfold]
      exact fun h => Option.noConfusion h
    | none =>
      rfl

/-- The possible states recorded for a class `a` are exactly the masked cells
of column `a` over all rows. -/
theorem possible_states_mem (a s : Nat) :
    s ∈ pairTableData.map (fun row => row.getD a 0 &&& STATE_MASK) ↔
      ∃ r, r < 53 ∧ cellOf pairTableData r a &&& STATE_MASK = s := by
  rw [List.mem_map]
  constructor
  · rintro ⟨row, hrow, he⟩
    obtain ⟨n, hget⟩ := List.mem_iff_get?.mp hrow
    obtain ⟨hlt, _⟩ := List.get?_eq_some.mp hget
    rw [show pairTableData.length = 53 from by decide] at hlt
    refine ⟨n, hlt, ?_⟩
    show (pairTableData.getD n []).getD a 0 &&& STATE_MASK = s
    rw [show pairTableData.getD n [] = row from by
      show (pairTableData.get? n).getD [] = row
      rw [hget]
      rfl]
    exact he
  · rintro ⟨r, hr, he⟩
    have hlt : r < pairTableData.length := by
      rw [show pairTableData.length = 53 from by decide]
      exact hr
    refine ⟨pairTableData.getD r [], ?_, he⟩
    rw [show pairTableData.getD r [] = pairTableData.get ⟨r, hlt⟩ from by
      show (pairTableData.get? r).getD [] = _
      rw [List.get?_eq_get hlt]
      rfl]
    exact List.get_mem pairTableData r hlt

/-- Claim C5: for canonical classes `a`, `b`, the generated `is_safe_pair`
answers `true` exactly when the pair-table cell read on `b` from the state
reached after consuming `a` is the same for every possible predecessor row. -/
theorem claim_C5_safe_pair (a b : Nat) (ha : a < 43) (hb : b < 43) :
    is_safe_pair a b = true ↔
      ∀ r r', r < 53 → r' < 53 →
        cellOf PAIR_TABLE (cellOf PAIR_TABLE r a &&& STATE_MASK) b
          = cellOf PAIR_TABLE (cellOf PAIR_TABLE r' a &&& STATE_MASK) b := by
  show (!((unsafePairsOf PAIR_TABLE).contains (a, b))) = true ↔ _
  rw [pairTable_eq, Bool.not_eq_true']
  constructor
  · intro hfalse r r' hr hr'
    have hnmem : (a, b) ∉ unsafePairsOf pairTableData := by
      intro hmem
      have hc : (unsafePairsOf pairTableData).contains (a, b) = true :=
        List.elem_iff.mpr hmem
      rw [hfalse] at hc
      exact Bool.noConfusion hc
    have hP : ∀ s ∈ pairTableData.map (fun row => row.getD a 0 &&& STATE_MASK),
        ∀ s2 ∈ pairTableData.map (fun row => row.getD a 0 &&& STATE_MASK),
        cellOf pairTableData s b = cellOf pairTableData s2 b := by
      by_contra hnp
      exact hnmem ((mem_unsafePairsOf pairTableData a b).mpr ⟨ha, hb, hnp⟩)
    exact hP _ ((possible_states_mem a _).mpr ⟨r, hr, rfl⟩)
      _ ((possible_states_mem a _).mpr ⟨r', hr', rfl⟩)
  · intro hall
    have hnmem : (a, b) ∉ unsafePairsOf pairTableData := by
      intro hmem
      obtain ⟨_, _, hnp⟩ := (mem_unsafePairsOf pairTableData a b).mp hmem
      apply hnp
      intro s hs s2 hs2
      obtain ⟨r, hr, he⟩ := (possible_states_mem a s).mp hs
      obtain ⟨r', hr', he'⟩ := (possible_states_mem a s2).mp hs2
      rw [← he, ← he']
      exact hall r r' hr hr'
    cases hc : (unsafePairsOf pairTableData).contains (a, b) with
    | false => rfl
    | true => exact absurd (List.elem_iff.mp hc) hnmem

theorem claim_C5_safe_pair_witness :
    is_safe_pair 0 0 = true ↔
      ∀ r r', r < 53 → r' < 53 →
        cellOf PAIR_TABLE (cellOf PAIR_TABLE r 0 &&& STATE_MASK) 0
          = cellOf PAIR_TABLE (cellOf PAIR_TABLE r' 0 &&& STATE_MASK) 0 :=
  claim_C5_safe_pair 0 0 (by decide) (by decide)


end UnicodeLinebreak

namespace UnicodeLinebreak

/-! ### Splitting the scan at a chosen character boundary -/


theorem headCls_lt (ys : List Char) : headCls ys < 44 := by
  cases ys with
  | nil => decide
  | cons c l =>
    show classOf c.toNat < 44
    exact Nat.lt_trans (classOf_lt c.toNat) (by decide)

theorem utf8Len_append (xs ys : List Char) : utf8Len (xs ++ ys) = utf8Len xs + utf8Len ys := by
  induction xs with
  | nil =>
    show utf8Len ys = 0 + utf8Len ys
    rw [Nat.zero_add]
  | cons c cs ih =>
    show c.utf8Size + utf8Len (cs ++ ys) = c.utf8Size + utf8Len cs + utf8Len ys
    rw [ih, Nat.add_assoc]

theorem charIndices_append (xs ys : List Char) : ∀ i,
    charIndices i (xs ++ ys) = charIndices i xs ++ charIndices (i + utf8Len xs) ys := by
  induction xs with
  | nil =>
    intro i
    show charIndices i ys = charIndices (i + utf8Len []) ys
    rw [show utf8Len [] = 0 from rfl, Nat.add_zero]
  | cons c cs ih =>
    intro i
    show (i, c) :: charIndices (i + c.utf8Size) (cs ++ ys)
      = ((i, c) :: charIndices (i + c.utf8Size) cs) ++ charIndices (i + utf8Len (c :: cs)) ys
    rw [List.cons_append, ih (i + c.utf8Size)]
    rw [show i + utf8Len (c :: cs) = i + c.utf8Size + utf8Len cs from by
      show i + (c.utf8Size + utf8Len cs) = _
      omega]

theorem classifyT_snoc (s : List Char) (c : Char) :
    classifyT (s ++ [c]) = classifyT s ++ [(utf8Len s, classOf c.toNat)] := by
  unfold classifyT
  rw [charIndices_append s [c] 0, Nat.zero_add, List.map_append]
  rfl

theorem scanState_snoc (tbl : Table) (st : Nat × Bool) (ps : List (Nat × Nat)) (p : Nat × Nat) :
    scanState tbl st (ps ++ [p]) = nextSt tbl (scanState tbl st ps) p := by
  show List.foldl _ _ _ = _
  rw [List.foldl_append]
  rfl

theorem classifyT_offsets_lt (s : List Char) : ∀ p ∈ classifyT s, p.1 < utf8Len s := by
  intro p hp
  obtain ⟨q, hq, hqe⟩ := List.mem_map.mp hp
  subst hqe
  have hb := charIndices_mem_bounds s 0 q hq
  show q.1 < utf8Len s
  omega

/-- The element sequence splits at a character boundary: prefix classes, the
boundary element at the prefix byte length, then strictly later offsets. -/
theorem seqT_split (xs ys : List Char) :
    ∃ tail, seqT (xs ++ ys) = classifyT xs ++ ((utf8Len xs, headCls ys) :: tail) ∧
      ∀ p ∈ tail, utf8Len xs < p.1 := by
  cases ys with
  | nil =>
    refine ⟨[], ?_, ?_⟩
    · show classifyT (xs ++ []) ++ [(utf8Len (xs ++ []), EOT)] = _
      rw [List.append_nil]
      rfl
    · intro p hp
      exact absurd hp (List.not_mem_nil p)
  | cons c ys' =>
    refine ⟨(charIndices (utf8Len xs + c.utf8Size) ys').map (fun p => (p.1, classOf p.2.toNat))
        ++ [(utf8Len (xs ++ c :: ys'), EOT)], ?_, ?_⟩
    · show classifyT (xs ++ c :: ys') ++ [(utf8Len (xs ++ c :: ys'), EOT)] = _
      unfold classifyT
      rw [charIndices_append xs (c :: ys') 0, Nat.zero_add, List.map_append]
      rw [show charIndices (utf8Len xs) (c :: ys')
          = (utf8Len xs, c) :: charIndices (utf8Len xs + c.utf8Size) ys' from rfl]
      rw [List.map_cons, List.append_assoc]
      rfl
    · intro p hp
      rcases List.mem_append.mp hp with h | h
      · obtain ⟨q, hq, hqe⟩ := List.mem_map.mp h
        subst hqe
        have hb := charIndices_mem_bounds ys' (utf8Len xs + c.utf8Size) q hq
        have hpos := Char.utf8Size_pos c
        show utf8Len xs < q.1
        omega
      · rw [List.mem_singleton.mp h]
        rw [utf8Len_append]
        have hpos := Char.utf8Size_pos c
        show utf8Len xs < utf8Len xs + (c.utf8Size + utf8Len ys')
        omega

/-- The emitted opportunity exactly at a character boundary is governed by
the single scan step taken there: the cell read on the class after the
boundary from the state reached at the boundary. -/
theorem mem_emit_split (xs ys : List Char) (k : BreakOpportunity)
    (st : Nat × Bool) (hst : st = scanState pairTableData (SOT, false) (classifyT xs))
    (v : Nat) (hv : v = cellOf pairTableData st.1 (headCls ys)) :
    (utf8Len xs, k) ∈ linebreaksTW pairTableData (xs ++ ys) ↔
      ((v &&& ALLOWED_BREAK_BIT != 0) && (!st.2 || (v &&& MANDATORY_BREAK_BIT != 0))) = true
        ∧ k = (if v &&& MANDATORY_BREAK_BIT != 0 then BreakOpportunity.Mandatory
              else BreakOpportunity.Allowed) := by
  subst hv
  subst hst
  obtain ⟨tail, hsplit, htail⟩ := seqT_split xs ys
  rw [mem_linebreaksTW, hsplit, scanTW_append, scanTW_cons]
  constructor
  · rintro ⟨m, hmem, hk⟩
    rcases List.mem_append.mp hmem with hin | hin
    · exfalso
      have hoffs := scanTW_offsets pairTableData (classifyT xs) (SOT, false)
      have hmm : utf8Len xs ∈ (classifyT xs).map (fun p => p.1) := by
        rw [← hoffs]
        exact List.mem_map_of_mem _ hin
      obtain ⟨q, hq, hqe⟩ := List.mem_map.mp hmm
      have hlt := classifyT_offsets_lt xs q hq
      have hq1 : q.1 = utf8Len xs := hqe
      omega
    · rcases List.mem_cons.mp hin with heq | hin'
      · injection heq with h1 h2
        injection h2 with h2a h2b
        refine ⟨h2a.symm, ?_⟩
        rw [hk, h2b]
      · exfalso
        have hoffs := scanTW_offsets pairTableData tail
          (nextSt pairTableData (scanState pairTableData (SOT, false) (classifyT xs))
            (utf8Len xs, headCls ys))
        have hmm : utf8Len xs ∈ tail.map (fun p => p.1) := by
          rw [← hoffs]
          exact List.mem_map_of_mem _ hin'
        obtain ⟨q, hq, hqe⟩ := List.mem_map.mp hmm
        have hgt := htail q hq
        have hq1 : q.1 = utf8Len xs := hqe
        omega
  · rintro ⟨hB, hk⟩
    refine ⟨cellOf pairTableData (scanState pairTableData (SOT, false) (classifyT xs)).1
        (headCls ys) &&& MANDATORY_BREAK_BIT != 0, ?_, hk⟩
    apply List.mem_append_right
    rw [hB]
    exact List.mem_cons_self _ _

end UnicodeLinebreak

namespace UnicodeLinebreak

/-! ### Claim C6: zero-width-joiner suppression -/

/-- Claim C6: right after a character of class ZWJ, an allowed
(non-mandatory) break is never emitted; a mandatory one — the cell read at
that boundary having the mandatory bit — still is. -/
theorem claim_C6_zwj (s₁ : List Char) (c : Char) (s₂ : List Char)
    (hzwj : classOf c.toNat = ZWJ) :
    ∃ l, linebreaks (s₁ ++ c :: s₂) = some l ∧
      (utf8Len (s₁ ++ [c]), BreakOpportunity.Allowed) ∉ l ∧
      (cellOf PAIR_TABLE (scanState PAIR_TABLE (SOT, false) (classifyT (s₁ ++ [c]))).1
          (headCls s₂) &&& MANDATORY_BREAK_BIT ≠ 0 →
        (utf8Len (s₁ ++ [c]), BreakOpportunity.Mandatory) ∈ l) := by
  rw [pairTable_eq]
  have hs : s₁ ++ c :: s₂ = (s₁ ++ [c]) ++ s₂ := by
    rw [List.append_assoc]
    rfl
  have hflag : (scanState pairTableData (SOT, false) (classifyT (s₁ ++ [c]))).2 = true := by
    rw [classifyT_snoc, scanState_snoc]
    show (classOf c.toNat == ZWJ) = true
    simp only [hzwj]
    decide
  refine ⟨linebreaksTW pairTableData (s₁ ++ c :: s₂), linebreaks_eq _, ?_, ?_⟩
  · intro hmem
    rw [hs] at hmem
    obtain ⟨hgate, hkind⟩ :=
      (mem_emit_split (s₁ ++ [c]) s₂ BreakOpportunity.Allowed _ rfl _ rfl).mp hmem
    rw [hflag] at hgate
    simp only [Bool.not_true, Bool.false_or, Bool.and_eq_true] at hgate
    rw [hgate.2] at hkind
    simp at hkind
  · intro hmand
    rw [hs]
    apply (mem_emit_split (s₁ ++ [c]) s₂ BreakOpportunity.Mandatory _ rfl _ rfl).mpr
    have hrow := (scanState_lt (classifyT (s₁ ++ [c])) (SOT, false)
      (by show sot < 53; decide) (classifyT_cls_lt _)).1
    have hmb : (cellOf pairTableData
        (scanState pairTableData (SOT, false) (classifyT (s₁ ++ [c]))).1 (headCls s₂)
        &&& MANDATORY_BREAK_BIT != 0) = true := bne_iff_ne.mpr hmand
    have hab : (cellOf pairTableData
        (scanState pairTableData (SOT, false) (classifyT (s₁ ++ [c]))).1 (headCls s₂)
        &&& ALLOWED_BREAK_BIT != 0) = true :=
      bne_iff_ne.mpr (mand_imp_allowed _ hrow _ (headCls_lt s₂) hmand)
    refine ⟨?_, ?_⟩
    · rw [hab, hmb]
      simp
    · rw [hmb]
      simp

theorem claim_C6_zwj_witness :
    ∃ l, linebreaks (['a'] ++ '‍' :: ([] : List Char)) = some l ∧
      (utf8Len (['a'] ++ ['‍']), BreakOpportunity.Allowed) ∉ l ∧
      (cellOf PAIR_TABLE
          (scanState PAIR_TABLE (SOT, false) (classifyT (['a'] ++ ['‍']))).1
          (headCls ([] : List Char)) &&& MANDATORY_BREAK_BIT ≠ 0 →
        (utf8Len (['a'] ++ ['‍']), BreakOpportunity.Mandatory) ∈ l) :=
  claim_C6_zwj ['a'] '‍' [] (by decide)

/-! ### Claim C10: no break inside CR LF -/

/-- Claim C10: `"\r\n"` yields exactly `[(2, Mandatory)]`, and in any text no
opportunity of any kind is emitted at the offset between a CR and a directly
following LF. -/
theorem claim_C10_crlf :
    linebreaks ['\r', '\n'] = some [(2, BreakOpportunity.Mandatory)] ∧
    ∀ (s₁ s₂ : List Char), ∃ l, linebreaks (s₁ ++ '\r' :: '\n' :: s₂) = some l ∧
      ∀ k, (utf8Len s₁ + 1, k) ∉ l := by
  constructor
  · rw [linebreaks_eq]
    decide
  · intro s₁ s₂
    refine ⟨linebreaksTW pairTableData (s₁ ++ '\r' :: '\n' :: s₂), linebreaks_eq _, ?_⟩
    intro k hmem
    have hs : s₁ ++ '\r' :: '\n' :: s₂ = (s₁ ++ ['\r']) ++ '\n' :: s₂ := by
      rw [List.append_assoc]
      rfl
    have hlen : utf8Len (s₁ ++ ['\r']) = utf8Len s₁ + 1 := by
      rw [utf8Len_append]
      rw [show utf8Len ['\r'] = 1 from by decide]
    rw [hs] at hmem
    rw [← hlen] at hmem
    obtain ⟨hgate, _⟩ :=
      (mem_emit_split (s₁ ++ ['\r']) ('\n' :: s₂) k _ rfl _ rfl).mp hmem
    have hrow : (scanState pairTableData (SOT, false) (classifyT (s₁ ++ ['\r']))).1 = 1 := by
      rw [classifyT_snoc, scanState_snoc]
      show cellOf pairTableData (scanState pairTableData (SOT, false) (classifyT s₁)).1
          (classOf ('\r').toNat) &&& STATE_MASK = 1
      rw [show classOf ('\r').toNat = 1 from by decide]
      exact cr_col_state _ (scanState_lt (classifyT s₁) (SOT, false)
        (by show sot < 53; decide) (classifyT_cls_lt s₁)).1
    rw [hrow] at hgate
    rw [show headCls ('\n' :: s₂) = 2 from by show classOf ('\n').toNat = 2; decide] at hgate
    rw [show (cellOf pairTableData 1 2 &&& ALLOWED_BREAK_BIT != 0) = false from by decide]
      at hgate
    simp at hgate

theorem claim_C10_crlf_witness :
    ∃ l, linebreaks (['a'] ++ '\r' :: '\n' :: ([] : List Char)) = some l ∧
      ∀ k, (utf8Len ['a'] + 1, k) ∉ l :=
  claim_C10_crlf.2 ['a'] []

/-! ### Witness instantiations for the scan-shape claims -/

theorem claim_C3_trailing_mandatory_witness :
    ∃ l, linebreaks ['a'] = some l ∧ l ≠ [] ∧
      l.getLast? = some (utf8Len ['a'], BreakOpportunity.Mandatory) :=
  claim_C3_trailing_mandatory ['a'] (by decide)

theorem claim_C7_monotone_offsets_witness :
    ∃ l, linebreaks ['a', ' ', 'b'] = some l ∧ l.Pairwise (fun a b => a.1 < b.1) ∧
      ∀ k, (0, k) ∉ l :=
  claim_C7_monotone_offsets ['a', ' ', 'b']

end UnicodeLinebreak
